import Mathlib

set_option maxHeartbeats 1000000

namespace VoiceLens

/-- JSON-like values as manipulated by the Python code.  Python dicts are
modelled as ordered association lists of string keys (mirroring insertion
order); Python `None` is `Json.null`; numbers are modelled as exact
rationals (the numeric constants appearing in the source are all decimal
literals). -/
inductive Json where
  | null : Json
  | bool : Bool → Json
  | num : ℚ → Json
  | str : String → Json
  | arr : List Json → Json
  | obj : List (String × Json) → Json

/-- Python `value is None` check on a JSON value. -/
def Json.isNull : Json → Bool
  | .null => true
  | _ => false

/-- Python truthiness of a JSON value (used for `or` defaults and
`if x:` checks in the source). -/
def Json.truthy : Json → Bool
  | .null => false
  | .bool b => b
  | .num q => q ≠ 0
  | .str s => s ≠ ""
  | .arr l => !l.isEmpty
  | .obj o => !o.isEmpty

/-- Whether a JSON value is a dict (Python `isinstance(value, dict)`). -/
def Json.isObj : Json → Bool
  | .obj _ => true
  | _ => false

/-- First-match lookup in an ordered association list (Python dict access). -/
def lookupO : List (String × Json) → String → Option Json
  | [], _ => none
  | (k', v) :: rest, k => if k' = k then some v else lookupO rest k

/-- Whether a key is present (Python `key in dict`). -/
def hasKey (o : List (String × Json)) (k : String) : Bool :=
  (lookupO o k).isSome

/-- Python `dict[key] = value`: updates the value in place if the key is
present (keeping its position), otherwise appends the new key at the end,
exactly like CPython dict insertion order. -/
def objInsert (o : List (String × Json)) (k : String) (v : Json) :
    List (String × Json) :=
  if hasKey o k then
    o.map (fun p => if p.1 = k then (k, v) else p)
  else
    o ++ [(k, v)]

/-- Python `{**a, **b}`: keys of `a` in order (values overridden by `b`
where present), followed by the keys of `b` not occurring in `a`, in
order. -/
def pyMerge (a b : List (String × Json)) : List (String × Json) :=
  a.map (fun p => (p.1, (lookupO b p.1).getD p.2)) ++
    b.filter (fun p => !hasKey a p.1)

/-- Python `dict.get(key, default)`. -/
def pyGet (o : List (String × Json)) (k : String) (dflt : Json) : Json :=
  (lookupO o k).getD dflt

/-- Splitting a character list at every dot, as Python
`path.split(".")` does: `""` yields `[""]`, separators at the ends yield
empty segments. -/
def splitDots : List Char → List String
  | [] => [""]
  | c :: rest =>
    if c = '.' then "" :: splitDots rest
    else
      match splitDots rest with
      | s :: ss => (⟨c :: s.data⟩ : String) :: ss
      | [] => [⟨[c]⟩]

/-- Python `path.split(".")`. -/
def splitPath (s : String) : List String :=
  splitDots s.data

/-- Core traversal of `VCPMapper._get_nested_value`, on an already split
key list.  Returns `none` where the Python code returns `None` because a
segment is missing or a non-dict is indexed. -/
def getNestedJ : Json → List String → Option Json
  | v, [] => some v
  | .obj o, k :: ks =>
    match lookupO o k with
    | some v => getNestedJ v ks
    | none => none
  | _, _ :: _ => none

/-- Embeds `VCPMapper._get_nested_value(data, path)`.  In Python the
"absent" result and a stored JSON `null` are both the value `None`, so the
returned `Json` uses `Json.null` for both. -/
def getNestedValue (data : Json) (path : String) : Json :=
  (getNestedJ data (splitPath path)).getD Json.null

/-- Core of `VCPMapper._set_nested_value`, on an already split key list.
The Python code walks `keys[:-1]`, creating intermediate dicts for missing
keys, then assigns the last key.  When an existing intermediate value is
not a dict the Python code raises `TypeError` (either at the `in` check,
the indexing, or the final item assignment); that raise is modelled as
`none`. -/
def setNestedJ (o : List (String × Json)) :
    List String → Json → Option (List (String × Json))
  | [], _ => none
  | [k], v => some (objInsert o k v)
  | k :: k2 :: ks, v =>
    match lookupO o k with
    | some (.obj sub) =>
      (setNestedJ sub (k2 :: ks) v).map (fun s => objInsert o k (.obj s))
    | some _ => none
    | none =>
      (setNestedJ [] (k2 :: ks) v).map (fun s => objInsert o k (.obj s))

/-- Embeds `VCPMapper._set_nested_value(data, path, value)` (the Python
function mutates `data`; this embedding returns the updated dict, with
`none` modelling a raised `TypeError`). -/
def setNestedValue (data : List (String × Json)) (path : String)
    (value : Json) : Option (List (String × Json)) :=
  setNestedJ data (splitPath path) value

/-- Whether the pattern list is an initial segment of the character
list (helper for Python substring containment). -/
def listStartsWith : List Char → List Char → Bool
  | _, [] => true
  | [], _ :: _ => false
  | c :: cs, p :: ps => c = p && listStartsWith cs ps

/-- Substring search on character lists. -/
def listHasSub : List Char → List Char → Bool
  | [], p => p.isEmpty
  | l@(_ :: rest), p => listStartsWith l p || listHasSub rest p

/-- Python `pattern in s` substring containment on strings. -/
def strHasSub (s pat : String) : Bool :=
  listHasSub s.data pat.data

/-- Python `any(term in reason for term in terms)`. -/
def anyTermIn (reason : String) (terms : List String) : Bool :=
  terms.any (fun t => strHasSub reason t)

/-- Python `s.lower()`.  All strings handled by the source's lookups and
substring rules are ASCII, where per-character lowering matches
`str.lower`. -/
def pyLower (s : String) : String :=
  ⟨s.data.map Char.toLower⟩

/-- The `sentiment_mapping` dict literal of
`VCPMapper._convert_sentiment_to_score` (scores kept as exact
rationals: 1.0, 0.8, 0.6, 0.5, 0.4, 0.2, 0.0). -/
def sentiment_mapping : List (String × ℚ) :=
  [("very_positive", 1),
   ("positive", mkRat 4 5),
   ("slightly_positive", mkRat 3 5),
   ("neutral", mkRat 1 2),
   ("slightly_negative", mkRat 2 5),
   ("negative", mkRat 1 5),
   ("very_negative", 0)]

/-- First-match lookup in a rational-valued association list. -/
def lookupQ : List (String × ℚ) → String → Option ℚ
  | [], _ => none
  | (k', v) :: rest, k => if k' = k then some v else lookupQ rest k

/-- Embeds `VCPMapper._convert_sentiment_to_score` on string input:
`sentiment_mapping.get(sentiment.lower(), 0.5)`. -/
def convert_sentiment_to_score (sentiment : String) : ℚ :=
  (lookupQ sentiment_mapping (pyLower sentiment)).getD (mkRat 1 2)

/-- The `direction_mapping` dict literal of
`VCPMapper._convert_direction_to_channel`. -/
def direction_mapping : List (String × String) :=
  [("inbound", "phone"),
   ("outbound", "phone"),
   ("web", "web"),
   ("api", "api"),
   ("websocket", "websocket")]

/-- First-match lookup in a string-valued association list. -/
def lookupS : List (String × String) → String → Option String
  | [], _ => none
  | (k', v) :: rest, k => if k' = k then some v else lookupS rest k

/-- Embeds `VCPMapper._convert_direction_to_channel` on string input:
`direction_mapping.get(direction.lower(), "phone")`. -/
def convert_direction_to_channel (direction : String) : String :=
  (lookupS direction_mapping (pyLower direction)).getD "phone"

/-- Embeds `VCPMapper._convert_disconnection_to_status` on string input:
lowercases the reason then checks the four substring groups in order,
defaulting to "failure". -/
def convert_disconnection_to_status (disconnection_reason : String) :
    String :=
  let reason := pyLower disconnection_reason
  if anyTermIn reason ["completed", "success", "finished"] then "success"
  else if anyTermIn reason ["timeout", "no_answer", "busy"] then "timeout"
  else if anyTermIn reason ["error", "failed", "connection"] then "error"
  else if anyTermIn reason ["partial", "incomplete"] then "partial"
  else "failure"

/-- Rendering of a rational as Python would render the number.  The exact
digit format is irrelevant to the source behaviour: rendered numbers are
only ever searched for alphabetic patterns such as "appointment_",
"budget" or "$", which no digit rendering can contain. -/
def ratRender (q : ℚ) : String :=
  if q.den = 1 then toString q.num
  else toString q.num ++ "/" ++ toString q.den

mutual

/-- Python `repr` of a JSON-like value (`None`, `True`, `False`,
single-quoted strings, bracketed lists, braced dicts). -/
def pyRepr : Json → String
  | .null => "None"
  | .bool b => if b then "True" else "False"
  | .num q => ratRender q
  | .str s => "\x27" ++ s ++ "\x27"
  | .arr l => "[" ++ String.intercalate ", " (pyReprList l) ++ "]"
  | .obj o => "\x7b" ++ String.intercalate ", " (pyReprObj o) ++ "\x7d"

/-- Renders list elements for `pyRepr`. -/
def pyReprList : List Json → List String
  | [] => []
  | j :: js => pyRepr j :: pyReprList js

/-- Renders dict entries for `pyRepr`. -/
def pyReprObj : List (String × Json) → List String
  | [] => []
  | (k, v) :: rest =>
    ("\x27" ++ k ++ "\x27: " ++ pyRepr v) :: pyReprObj rest

end

/-- Python `str()` of a JSON-like value: identical to `repr` except that a
top-level string is rendered without quotes. -/
def pyStr : Json → String
  | .str s => s
  | v => pyRepr v

/-- The `AuthMethod` enum of the source. -/
inductive AuthMethod where
  | hmac_sha256
  | bearer_token
  | ip_whitelist
  | api_key_header
  | signature_header
deriving DecidableEq

/-- The fields of `WebhookAuthConfig` consulted by the embedded functions
(`ip_addresses` and `validation_example` are documentation-only data that
no embedded function reads). -/
structure WebhookAuthConfig where
  method : AuthMethod
  header_name : Option String
  secret_key_required : Bool
deriving DecidableEq

/-- The fields of `ProviderInfo` consulted by the embedded functions.  The
display/documentation metadata (name, company, urls, supported events,
webhook schemas, timestamps) is never read by `validate_webhook_signature`
or `map_to_vcp` and is omitted; `vcp_mapping_rules` is the ordered list of
(provider path, canonical path) pairs, in source dict order, with `[]`
playing the role of Python-falsy `None`/`{}`. -/
structure ProviderInfo where
  name : String
  webhook_auth : Option WebhookAuthConfig
  vcp_mapping_rules : List (String × String)
deriving DecidableEq

/-- The six entries of `VoiceAIProviderRegistry._initialize_providers`,
keyed as in the source dict. -/
def providers : List (String × ProviderInfo) :=
  [("retell",
    { name := "Retell AI",
      webhook_auth := some
        { method := .signature_header,
          header_name := some "x-retell-signature",
          secret_key_required := true },
      vcp_mapping_rules :=
        [("call.call_id", "call.call_id"),
         ("call.from_number", "call.from_"),
         ("call.to_number", "call.to"),
         ("call.direction", "call.channel"),
         ("call.start_timestamp", "call.start_time"),
         ("call.end_timestamp", "call.end_time"),
         ("call.transcript", "artifacts.transcript"),
         ("event", "audit.event_type")] }),
   ("bland",
    { name := "Bland AI",
      webhook_auth := some
        { method := .bearer_token,
          header_name := some "Authorization",
          secret_key_required := false },
      vcp_mapping_rules :=
        [("call_id", "call.call_id"),
         ("from", "call.from_"),
         ("to", "call.to"),
         ("call_length", "call.duration_sec"),
         ("transcript", "artifacts.transcript"),
         ("recording_url", "artifacts.recording_url")] }),
   ("vapi",
    { name := "Vapi",
      webhook_auth := none,
      vcp_mapping_rules :=
        [("message.call.id", "call.call_id"),
         ("message.endedReason", "outcomes.objective.disconnect_reason"),
         ("message.artifact.transcript", "artifacts.transcript"),
         ("message.artifact.recording", "artifacts.recording_url")] }),
   ("elevenlabs",
    { name := "ElevenLabs",
      webhook_auth := some
        { method := .hmac_sha256,
          header_name := some "elevenlabs-signature",
          secret_key_required := true },
      vcp_mapping_rules :=
        [("data.conversation_id", "call.call_id"),
         ("data.agent_id", "call.agent_id"),
         ("data.transcript", "artifacts.transcript_object"),
         ("data.metadata.start_time_unix_secs", "call.start_time"),
         ("data.metadata.call_duration_secs", "call.duration_sec")] }),
   ("openai_realtime",
    { name := "OpenAI Realtime API",
      webhook_auth := none,
      vcp_mapping_rules :=
        [("session.id", "call.session_id"),
         ("session.model", "call.model_used"),
         ("item.content.transcript", "artifacts.transcript")] }),
   ("assistable",
    { name := "Assistable AI",
      webhook_auth := some
        { method := .api_key_header,
          header_name := some "Authorization",
          secret_key_required := false },
      vcp_mapping_rules :=
        [("call_id", "call.call_id"),
         ("direction", "call.channel"),
         ("to", "call.to"),
         ("from", "call.from_"),
         ("start_timestamp", "call.start_time"),
         ("end_timestamp", "call.end_time"),
         ("call_time_seconds", "call.duration_sec"),
         ("full_transcript", "artifacts.transcript"),
         ("recording_url", "artifacts.recording_url"),
         ("call_summary", "hcr.summary"),
         ("user_sentiment", "outcomes.user_satisfaction_score"),
         ("call_completion", "outcomes.objective.metrics.task_completion"),
         ("assistant_task_completion",
          "outcomes.objective.metrics.assistant_success"),
         ("disconnection_reason", "outcomes.objective.status"),
         ("extractions", "custom.provider_specific.assistable.extractions"),
         ("args", "custom.provider_specific.assistable.call_args"),
         ("metadata", "custom.provider_specific.assistable.metadata"),
         ("contact_id", "call.caller_id"),
         ("call_type", "custom.provider_specific.assistable.call_type")] })]

/-- First-match lookup in the provider registry list. -/
def lookupProv : List (String × ProviderInfo) → String → Option ProviderInfo
  | [], _ => none
  | (k', v) :: rest, k => if k' = k then some v else lookupProv rest k

/-- Embeds `VoiceAIProviderRegistry.get_provider`:
`self.providers.get(provider_name.lower())`. -/
def get_provider (provider_name : String) : Option ProviderInfo :=
  lookupProv providers (pyLower provider_name)

/-- Embeds `VoiceAIProviderRegistry.validate_webhook_signature`.  The
HMAC-SHA256 primitive (`hmac.new(..., hashlib.sha256).hexdigest()`) is an
uninterpreted parameter `hmacHex secret message`; `hmac.compare_digest`
on strings is equality.  `none` models a raised exception (IndexError on
malformed signature headers, AttributeError when `secret` is `None`). -/
def validate_webhook_signature (hmacHex : String → String → String)
    (provider_name payload signature : String) (secret : Option String) :
    Option Bool :=
  match get_provider provider_name with
  | none => some false
  | some provider =>
    match provider.webhook_auth with
    | none => some false
    | some auth_config =>
      if auth_config.method = AuthMethod.hmac_sha256 then
        if provider_name = "elevenlabs" then do
          -- ElevenLabs format: t=timestamp,v0=hash
          let parts := signature.splitOn ","
          let p0 ← parts.get? 0
          let timestamp ← (p0.splitOn "=").get? 1
          let p1 ← parts.get? 1
          let hash_part ← (p1.splitOn "=").get? 1
          let sec ← secret
          let full_payload := timestamp ++ "." ++ payload
          let calculated_hash := hmacHex sec full_payload
          some (("v0=" ++ calculated_hash) = ("v0=" ++ hash_part) : Bool)
        else
          -- falls through to the final `return False`
          some false
      else if auth_config.method = AuthMethod.signature_header then
        if provider_name = "retell" then
          -- "return True  # Placeholder" in the source
          some true
        else
          some false
      else
        some false

/-- The `_convert_sentiment_to_score` call on the raw mapped value:
`value.lower()` raises AttributeError on non-strings (modelled as
`none`). -/
def jConvertSentiment : Json → Option Json
  | .str s => some (.num (convert_sentiment_to_score s))
  | _ => none

/-- The `_convert_direction_to_channel` call on the raw mapped value. -/
def jConvertDirection : Json → Option Json
  | .str s => some (.str (convert_direction_to_channel s))
  | _ => none

/-- The `_convert_disconnection_to_status` call on the raw mapped value. -/
def jConvertDisconnection : Json → Option Json
  | .str s => some (.str (convert_disconnection_to_status s))
  | _ => none

/-- The special-case dispatch inside the rule loop of
`VCPMapper.map_to_vcp`: for provider "assistable" the three named provider
paths are converted, every other rule is an identity copy. -/
def ruleTransform (provider_name provider_path : String) (value : Json) :
    Option Json :=
  if provider_name = "assistable" then
    if provider_path = "user_sentiment" then jConvertSentiment value
    else if provider_path = "direction" then jConvertDirection value
    else if provider_path = "disconnection_reason" then
      jConvertDisconnection value
    else some value
  else some value

/-- One iteration of the rule loop of `VCPMapper.map_to_vcp`: read the
provider path; skip when the read is `None`; otherwise transform (for
assistable) and write at the canonical path. -/
def applyRuleStep (provider_name : String)
    (webhook_payload : List (String × Json)) (d : List (String × Json))
    (rule : String × String) : Option (List (String × Json)) :=
  let value := getNestedValue (.obj webhook_payload) rule.1
  if value.isNull then some d
  else do
    let w ← ruleTransform provider_name rule.1 value
    setNestedValue d rule.2 w

/-- The full rule loop of `VCPMapper.map_to_vcp`, building `vcp_data` from
the empty dict, in registry rule order. -/
def applyRules (provider_name : String)
    (webhook_payload : List (String × Json))
    (rules : List (String × String)) : Option (List (String × Json)) :=
  rules.foldlM (applyRuleStep provider_name webhook_payload) []

/-- Embeds `VCPMapper._build_provider_specific_data`. -/
def build_provider_specific_data (provider_name : String)
    (webhook_payload : List (String × Json)) : Json :=
  if provider_name = "assistable" then
    .obj
      [("data", .obj webhook_payload),
       ("extractions", pyGet webhook_payload "extractions" (.obj [])),
       ("call_args", pyGet webhook_payload "args" (.obj [])),
       ("metadata", pyGet webhook_payload "metadata" (.obj [])),
       ("call_type", pyGet webhook_payload "call_type" .null),
       ("task_completion", .obj
         [("call_completed",
           pyGet webhook_payload "call_completion" (.bool false)),
          ("assistant_completed",
           pyGet webhook_payload "assistant_task_completion" (.bool false)),
          ("completion_reason",
           pyGet webhook_payload "call_completion_reason" .null)]),
       ("analytics", .obj
         [("added_to_wallet",
           pyGet webhook_payload "added_to_wallet" (.bool false)),
          ("user_sentiment_raw",
           pyGet webhook_payload "user_sentiment" .null),
          ("disconnection_reason",
           pyGet webhook_payload "disconnection_reason" .null)])]
  else
    .obj [("data", .obj webhook_payload)]

/-- Python `needle in container` for a string needle: key test on dicts,
substring test on strings, membership on lists; `none` models the
TypeError raised for non-container values. -/
def pyIn (k : String) : Json → Option Bool
  | .obj o => some (hasKey o k)
  | .str s => some (strHasSub s k)
  | .arr l =>
    some (l.any (fun e => match e with | .str s => s = k | _ => false))
  | _ => none

/-- Python `.items()` (and `.get`) on a value that must be a dict; `none`
models the AttributeError raised otherwise. -/
def asItems : Json → Option (List (String × Json))
  | .obj o => some o
  | _ => none

/-- Python `value.get(key, default)` on a possibly non-dict value. -/
def jsonGetD (j : Json) (k : String) (dflt : Json) : Option Json :=
  (asItems j).map (fun o => pyGet o k dflt)

/-- Python `key.startswith((p1, p2, ...))`. -/
def startsWithAny (k : String) (pres : List String) : Bool :=
  pres.any (fun p => listStartsWith k.data p.data)

/-- Embeds `VCPMapper._calculate_qualification_score`. -/
def calculate_qualification_score
    (sales_data : List (String × Json)) : ℚ :=
  let score : ℚ := mkRat 1 2
  -- Decision maker bonus: `sales_data.get("decision_maker") is True`
  let score :=
    match pyGet sales_data "decision_maker" .null with
    | .bool true => score + mkRat 1 5
    | _ => score
  -- Budget indicators
  let budget := pyGet sales_data "budget_range" (.str "")
  let score :=
    if strHasSub (pyStr budget) "$" ||
        strHasSub (pyLower (pyStr budget)) "budget" then
      score + mkRat 3 20
    else score
  -- Timeline urgency
  let timeline := pyLower (pyStr (pyGet sales_data "purchase_timeline"
    (.str "")))
  let score :=
    if strHasSub timeline "30 days" || strHasSub timeline "immediate" ||
        strHasSub timeline "urgent" then
      score + mkRat 3 20
    else if strHasSub timeline "90 days" || strHasSub timeline "quarter" then
      score + mkRat 1 10
    else score
  min 1 score

/-- Embeds `VCPMapper._build_integrations_data`; `none` models the
exceptions raised when `extractions` is a truthy non-dict (its `.get` and
`.items()` calls). -/
def build_integrations_data (provider_name : String)
    (webhook_payload : List (String × Json)) :
    Option (List (String × Json)) :=
  if provider_name ≠ "assistable" then some []
  else
    let extractions := pyGet webhook_payload "extractions" (.obj [])
    if !extractions.truthy then some []
    else
      -- CRM-like data
      Option.bind (pyIn "customer_interest_level" extractions) (fun c1 =>
      Option.bind
        (if c1 then some true else pyIn "lead_score" extractions)
        (fun crmCond =>
      Option.bind
        (if crmCond then
          Option.bind
            (jsonGetD extractions "customer_interest_level"
              (.str "unknown")) (fun lead_score =>
          Option.bind (asItems extractions) (fun items =>
          some (objInsert [] "crm_system" (.obj
            [("provider", .str "assistable_extractions"),
             ("lead_score", lead_score),
             ("contact_data", .obj (items.filter (fun p =>
               startsWithAny p.1 ["contact_", "customer_", "lead_"])))]))))
        else some []) (fun integ1 =>
      -- Scheduling data
      Option.bind (pyIn "next_followup_date" extractions) (fun c2 =>
      let calCond := c2 || strHasSub (pyStr extractions) "appointment_"
      Option.bind
        (if calCond then
          Option.bind (jsonGetD extractions "next_followup_date" .null)
            (fun next_action =>
          Option.bind (asItems extractions) (fun items =>
          some (objInsert integ1 "calendar_system" (.obj
            [("provider", .str "assistable_scheduling"),
             ("next_action", next_action),
             ("scheduling_data", .obj (items.filter (fun p =>
               anyTermIn (pyLower p.1)
                 ["appointment", "schedule", "meeting", "followup"])))]))))
        else some integ1) (fun integ2 =>
      -- Sales/opportunity data
      Option.bind (asItems extractions) (fun items =>
      let sales_data := items.filter (fun p =>
        anyTermIn (pyLower p.1)
          ["budget", "purchase", "product_interest", "decision_maker",
           "timeline"])
      let integ3 :=
        if !sales_data.isEmpty then
          objInsert integ2 "sales_system" (.obj
            [("provider", .str "assistable_sales_intelligence"),
             ("opportunity_data", .obj sales_data),
             ("qualification_score",
              .num (calculate_qualification_score sales_data))])
        else integ2
      if integ3.isEmpty then some []
      else some (objInsert [] "integrations" (.obj integ3))))))))

/-- Python `call_id[:8]` inside the session-id f-string: defined for
strings; for a non-string the source would raise TypeError (or, for a
list, slice and render through repr) — both treated as failure here. -/
def pySlice8 : Json → Option String
  | .str s => some (⟨s.data.take 8⟩ : String)
  | _ => none

/-- Python `{**defaults, **vcp_data.get(key, {})}` unpacking of a section
of `vcp_data`: a present non-dict value would raise TypeError (`none`). -/
def getSection (d : List (String × Json)) (k : String) :
    Option (List (String × Json)) :=
  match lookupO d k with
  | none => some []
  | some (.obj o) => some o
  | some _ => none

/-- The `"call"` entry of the assembled message: fixed defaults unpacked
together with `**vcp_data.get('call', {})`. -/
def callSection (now provider_name : String) (call_id session_id : Json)
    (callSec : List (String × Json)) : Json :=
  .obj (pyMerge
    [("call_id", call_id),
     ("session_id", session_id),
     ("provider", .str provider_name),
     ("start_time", .str now),
     ("end_time", .str now),
     ("duration_sec", .num 0),
     ("capabilities_invoked", .arr [])] callSec)

/-- The `"outcomes"` entry of the assembled message: fixed defaults
unpacked together with `**vcp_data.get('outcomes', {})`. -/
def outcomesSection (outSec : List (String × Json)) : Json :=
  .obj (pyMerge
    [("perceived", .arr []),
     ("objective", .obj
       [("status", .str "unknown"),
        ("scored_criteria", .arr []),
        ("metrics", .obj [])]),
     ("perception_gap", .obj
       [("gap_score", .num 0),
        ("gap_class", .str "aligned")]),
     ("model_outcome_attribution", .obj
       [("roles", .obj []),
        ("kpis", .obj [])])] outSec)

/-- The `"custom"` entry of the assembled message. -/
def customSection (provider_name : String)
    (webhook_payload integ : List (String × Json)) : Json :=
  .obj (pyMerge
    [("provider_specific", .obj
       [(provider_name,
         build_provider_specific_data provider_name webhook_payload)])]
    integ)

/-- The full `vcp_message` dict literal of `VCPMapper.map_to_vcp`. -/
def buildMessage (now provider_name : String)
    (webhook_payload vcp_data : List (String × Json))
    (call_id session_id : Json)
    (callSec outSec integ : List (String × Json)) : Json :=
  .obj
    [("vcp_version", .str "0.5"),
     ("vcp_payload", .obj
       [("call", callSection now provider_name call_id session_id callSec),
        ("model_selection", .obj
          [("policy_id", .str (provider_name ++ "_default")),
           ("resolved_at", .str now),
           ("roles", .obj [])]),
        ("outcomes", outcomesSection outSec),
        ("hcr", .obj
          [("audience", .str "system"),
           ("headline", .str (provider_name ++ " call processed")),
           ("outcome_status", .str "success"),
           ("key_points", .arr []),
           ("impact_metrics", .obj [])]),
        ("artifacts", pyGet vcp_data "artifacts" (.obj [])),
        ("custom", customSection provider_name webhook_payload integ),
        ("consent", .obj
          [("consent_id", .str ("consent_" ++ pyStr call_id)),
           ("status", .str "granted"),
           ("scope", .arr [.str "recording", .str "analytics"]),
           ("version", .str "1.0")]),
        ("provenance", .obj
          [("source_system", .str (provider_name ++ "_webhook_api")),
           ("created_at", .str now),
           ("created_by", .str (provider_name ++ "_webhook_processor")),
           ("transformation_history", .arr
             [.str ("received_from_" ++ provider_name ++ "_webhook"),
              .str "mapped_to_vcp_v0.5"]),
           ("data_retention_policy", .str "standard_30_days"),
           ("compliance_flags", .arr [])])]),
     ("audit", .obj
       [("received_at", .str now),
        ("schema_version", .str "0.5")])]

/-- The canonical-message assembly of `VCPMapper.map_to_vcp` after the
rule loop: `now` stands for the injected `datetime.now(timezone.utc)`
ISO string and `uuid` for the `str(uuid.uuid4())` draw used when the
mapped data supplies no truthy call identifier. -/
def assembleVcp (now uuid provider_name : String)
    (webhook_payload : List (String × Json))
    (vcp_data : List (String × Json)) : Option Json :=
  let rawCid := getNestedValue (.obj vcp_data) "call.call_id"
  let call_id : Json := if rawCid.truthy then rawCid else .str uuid
  let rawSid := getNestedValue (.obj vcp_data) "call.session_id"
  let sessFallback : Option Json := Option.map
    (fun s => Json.str ("sess_" ++ provider_name ++ "_" ++ s))
    (pySlice8 call_id)
  Option.bind (if rawSid.truthy then some rawSid else sessFallback)
    (fun session_id =>
  Option.bind (getSection vcp_data "call") (fun callSec =>
  Option.bind (getSection vcp_data "outcomes") (fun outSec =>
  Option.bind
    (if provider_name = "assistable" then
      build_integrations_data provider_name webhook_payload
    else some [])
    (fun integ =>
  some (buildMessage now provider_name webhook_payload vcp_data call_id
    session_id callSec outSec integ)))))

/-- Embeds `VCPMapper.map_to_vcp(provider_name, webhook_payload)`; `now`
is the injected clock reading and `uuid` the fresh-identifier draw. -/
def map_to_vcp (now uuid provider_name : String)
    (webhook_payload : List (String × Json)) : Option Json :=
  match get_provider provider_name with
  | none => some (.obj [])
  | some provider =>
    if provider.vcp_mapping_rules.isEmpty then some (.obj [])
    else
      match applyRules provider_name webhook_payload
          provider.vcp_mapping_rules with
      | none => none
      | some vcp_data =>
        assembleVcp now uuid provider_name webhook_payload vcp_data

/-- The `ConsentStatus` enum of the v0.5 schema. -/
inductive ConsentStatusV05 where
  | granted
  | denied
  | pending
  | expired
  | revoked
deriving DecidableEq

/-- The fields of the v0.5 `ConsentRecord` read by `validate_v05`; the
remaining consent fields are never consulted by it. -/
structure ConsentRecordV05 where
  consent_id : String
  status : ConsentStatusV05

/-- The fields of `CapabilityInvocation` read by `validate_v05`.
Timestamps are modelled as integers (epoch seconds); the source compares
`datetime` values with the same order. -/
structure CapabilityInvocationV05 where
  capability_id : String
  invoked_at : Int
  success : Bool

/-- An entry of `call.capabilities_invoked` in a pydantic-parsed
`VCPMessage`: the field is `List[Union[str, CapabilityInvocation]]`, so
after validation an entry is a `str` or a `CapabilityInvocation` model
instance, never a raw dict. -/
inductive CapEntryV05 where
  | plain (s : String)
  | record (c : CapabilityInvocationV05)

/-- Python `isinstance(capability, dict)` on a parsed capability entry.
Every in-repo caller of `validate_v05` passes a message built by pydantic
validation (`VCPMessage(**...)`), whose union coercion turns dicts into
`CapabilityInvocation` instances, so the test is always `False`. -/
def CapEntryV05.isPyDict : CapEntryV05 → Bool := fun _ => false

/-- The fields of the v0.5 `Call` read by `validate_v05`. -/
structure CallV05 where
  call_id : String
  start_time : Int
  end_time : Option Int
  capabilities_invoked : List CapEntryV05

/-- The fields of the v0.5 `VCPPayload` read by `validate_v05`. -/
structure VCPPayloadV05 where
  call : CallV05
  consent : Option ConsentRecordV05

/-- The fields of the v0.5 `VCPMessage` read by `validate_v05`. -/
structure VCPMessageV05 where
  vcp_payload : VCPPayloadV05

/-- The capability loop of `validate_v05`: for each capability entry, the
before-call-start warning is guarded by `isinstance(capability, dict)`. -/
def capabilityWarnings (start_time : Int) :
    List CapEntryV05 → List String
  | [] => []
  | cap :: rest =>
    (if cap.isPyDict then
      match cap with
      | .record c =>
        if c.invoked_at < start_time then
          ["Capability " ++ c.capability_id ++ " invoked before call start"]
        else []
      | .plain _ => []
    else []) ++ capabilityWarnings start_time rest

/-- Embeds `VCPValidator.validate_v05`.  The try/except of the source
turns any raised exception into an error string; in this model of parsed
messages nothing inside the try block raises (`message.model_dump()`
succeeds on a validated model), so the except arm contributes nothing.
The function only reads the message, returning the errors and warnings
lists as data. -/
def validate_v05 (message : VCPMessageV05) : List String × List String :=
  let errs1 :=
    match message.vcp_payload.call.end_time with
    | some e =>
      if e < message.vcp_payload.call.start_time then
        ["Call end_time cannot be before start_time"]
      else []
    | none => []
  let warns1 := capabilityWarnings message.vcp_payload.call.start_time
    message.vcp_payload.call.capabilities_invoked
  let consentResults :=
    match message.vcp_payload.consent with
    | some c =>
      if c.status = ConsentStatusV05.expired then
        (([] : List String), ["User consent has expired"])
      else if c.status = ConsentStatusV05.revoked then
        (["Cannot process data with revoked consent"], ([] : List String))
      else ([], [])
    | none => ([], [])
  (errs1 ++ consentResults.1, warns1 ++ consentResults.2)

/-! Lemmas about the ordered-dict primitives. -/

theorem lookupO_nil (k : String) : lookupO [] k = none := rfl

theorem lookupO_cons (p : String × Json) (rest : List (String × Json))
    (k : String) :
    lookupO (p :: rest) k =
      if p.1 = k then some p.2 else lookupO rest k := by
  cases p
  rfl

theorem hasKey_cons (p : String × Json) (rest : List (String × Json))
    (k : String) :
    hasKey (p :: rest) k = (decide (p.1 = k) || hasKey rest k) := by
  by_cases h : p.1 = k <;> simp [hasKey, lookupO_cons, h]

theorem objInsert_cons (p : String × Json) (rest : List (String × Json))
    (k : String) (v : Json) :
    objInsert (p :: rest) k v =
      if p.1 = k then
        (k, v) :: rest.map (fun q => if q.1 = k then (k, v) else q)
      else p :: objInsert rest k v := by
  by_cases h : p.1 = k
  · simp [objInsert, hasKey_cons, h]
  · by_cases hk : hasKey rest k <;> simp [objInsert, hasKey_cons, h, hk]

theorem lookupO_objInsert_self (o : List (String × Json)) (k : String)
    (v : Json) : lookupO (objInsert o k v) k = some v := by
  induction o with
  | nil => simp [objInsert, hasKey, lookupO]
  | cons p rest ih =>
    rw [objInsert_cons]
    by_cases h : p.1 = k
    · simp [h, lookupO_cons]
    · simp [h, lookupO_cons, ih]

theorem lookupO_map_ite (rest : List (String × Json)) (k : String)
    (v : Json) (k' : String) (h : k' ≠ k) :
    lookupO (rest.map (fun q => if q.1 = k then (k, v) else q)) k' =
      lookupO rest k' := by
  induction rest with
  | nil => rfl
  | cons q rs ih =>
    by_cases hq : q.1 = k
    · have : k ≠ k' := fun hc => h hc.symm
      simp [hq, lookupO_cons, this, ih]
    · by_cases hq' : q.1 = k'
      · simp [hq, lookupO_cons, hq', h]
      · simp [hq, lookupO_cons, hq', ih]

theorem lookupO_objInsert_ne (o : List (String × Json)) (k : String)
    (v : Json) (k' : String) (h : k' ≠ k) :
    lookupO (objInsert o k v) k' = lookupO o k' := by
  induction o with
  | nil =>
    have : k ≠ k' := fun hc => h hc.symm
    simp [objInsert, hasKey, lookupO_cons, lookupO_nil, this]
  | cons p rest ih =>
    rw [objInsert_cons]
    by_cases hp : p.1 = k
    · have hk' : k ≠ k' := fun hc => h hc.symm
      simp [hp, lookupO_cons, hk', lookupO_map_ite rest k v k' h]
    · by_cases hp' : p.1 = k'
      · simp [hp, lookupO_cons, hp', h]
      · simp [hp, lookupO_cons, hp', ih]

/-- Two key paths diverge when they differ at some index at which both are
still defined: writing along one cannot affect reading along the other. -/
def diverges : List String → List String → Bool
  | k :: ks, k2 :: ks2 => (k != k2) || diverges ks ks2
  | _, _ => false

theorem diverges_comm (a b : List String) :
    diverges a b = diverges b a := by
  induction a generalizing b with
  | nil => cases b <;> rfl
  | cons k ks ih =>
    cases b with
    | nil => rfl
    | cons k2 ks2 =>
      have hbne : (k != k2) = (k2 != k) := by
        by_cases h : k = k2
        · simp [h]
        · have h2 : ¬k2 = k := fun hc => h hc.symm
          rw [bne_iff_ne.mpr h, bne_iff_ne.mpr h2]
      show ((k != k2) || diverges ks ks2) = ((k2 != k) || diverges ks2 ks)
      rw [hbne, ih ks2]

/-- Writing a path into a container and reading the same path back yields
the written value whenever the write succeeded. -/
theorem getNestedJ_setNestedJ_self :
    ∀ (ks : List String) (o o' : List (String × Json)) (v : Json),
      setNestedJ o ks v = some o' →
      getNestedJ (.obj o') ks = some v := by
  intro ks
  induction ks with
  | nil => intro o o' v h; simp [setNestedJ] at h
  | cons k ks ih =>
    intro o o' v h
    cases ks with
    | nil =>
      simp only [setNestedJ, Option.some.injEq] at h
      subst h
      simp [getNestedJ, lookupO_objInsert_self]
    | cons k2 ks2 =>
      cases hl : lookupO o k with
      | none =>
        rw [setNestedJ, hl] at h
        rcases Option.map_eq_some'.mp h with ⟨sub, hsub, ho'⟩
        subst ho'
        rw [getNestedJ, lookupO_objInsert_self]
        exact ih [] sub v hsub
      | some w =>
        cases w with
        | obj so =>
          rw [setNestedJ, hl] at h
          rcases Option.map_eq_some'.mp h with ⟨sub, hsub, ho'⟩
          subst ho'
          rw [getNestedJ, lookupO_objInsert_self]
          exact ih so sub v hsub
        | null => rw [setNestedJ, hl] at h; exact absurd h (by simp)
        | bool b => rw [setNestedJ, hl] at h; exact absurd h (by simp)
        | num q => rw [setNestedJ, hl] at h; exact absurd h (by simp)
        | str s => rw [setNestedJ, hl] at h; exact absurd h (by simp)
        | arr l => rw [setNestedJ, hl] at h; exact absurd h (by simp)

/-- Reading any path diverging from a freshly created path misses. -/
theorem getNestedJ_setNestedJ_fresh :
    ∀ (ks : List String) (o' : List (String × Json)) (v : Json)
      (ks' : List String),
      setNestedJ [] ks v = some o' → diverges ks ks' = true →
      getNestedJ (.obj o') ks' = none := by
  intro ks
  induction ks with
  | nil => intro o' v ks' h hdiv; simp [diverges] at hdiv
  | cons k ks ih =>
    intro o' v ks' h hdiv
    cases ks' with
    | nil => simp [diverges] at hdiv
    | cons k1 ks1 =>
      cases ks with
      | nil =>
        simp only [setNestedJ, Option.some.injEq] at h
        subst h
        have hk : k ≠ k1 := by simpa [diverges] using hdiv
        rw [getNestedJ]
        simp [objInsert, hasKey, lookupO_cons, lookupO_nil, hk]
      | cons kk kss =>
        rw [setNestedJ, lookupO_nil] at h
        rcases Option.map_eq_some'.mp h with ⟨sub, hsub, ho'⟩
        subst ho'
        by_cases hk : k = k1
        · subst hk
          have hdiv' : diverges (kk :: kss) ks1 = true := by
            simpa [diverges] using hdiv
          rw [getNestedJ, lookupO_objInsert_self]
          exact ih sub v ks1 hsub hdiv'
        · rw [getNestedJ]
          simp [objInsert, hasKey, lookupO_cons, lookupO_nil, hk]

/-- Writing along one path leaves reads along any diverging path
unchanged. -/
theorem getNestedJ_setNestedJ_frame :
    ∀ (ks : List String) (o o' : List (String × Json)) (v : Json)
      (ks' : List String),
      setNestedJ o ks v = some o' → diverges ks ks' = true →
      getNestedJ (.obj o') ks' = getNestedJ (.obj o) ks' := by
  intro ks
  induction ks with
  | nil => intro o o' v ks' h hdiv; simp [setNestedJ] at h
  | cons k ks ih =>
    intro o o' v ks' h hdiv
    cases ks' with
    | nil => simp [diverges] at hdiv
    | cons k1 ks1 =>
      cases ks with
      | nil =>
        have hk : k ≠ k1 := by simpa [diverges] using hdiv
        simp only [setNestedJ, Option.some.injEq] at h
        subst h
        rw [getNestedJ, getNestedJ,
          lookupO_objInsert_ne o k v k1 (fun hc => hk hc.symm)]
      | cons kk kss =>
        cases hl : lookupO o k with
        | none =>
          rw [setNestedJ, hl] at h
          rcases Option.map_eq_some'.mp h with ⟨sub, hsub, ho'⟩
          subst ho'
          by_cases hk : k = k1
          · subst hk
            have hdiv' : diverges (kk :: kss) ks1 = true := by
              simpa [diverges] using hdiv
            rw [getNestedJ, getNestedJ, lookupO_objInsert_self, hl]
            exact getNestedJ_setNestedJ_fresh _ _ _ _ hsub hdiv'
          · rw [getNestedJ, getNestedJ,
              lookupO_objInsert_ne o k _ k1 (fun hc => hk hc.symm)]
        | some w =>
          cases w with
          | obj so =>
            rw [setNestedJ, hl] at h
            rcases Option.map_eq_some'.mp h with ⟨sub, hsub, ho'⟩
            subst ho'
            by_cases hk : k = k1
            · subst hk
              have hdiv' : diverges (kk :: kss) ks1 = true := by
                simpa [diverges] using hdiv
              rw [getNestedJ, getNestedJ, lookupO_objInsert_self, hl]
              exact ih so sub v ks1 hsub hdiv'
            · rw [getNestedJ, getNestedJ,
                lookupO_objInsert_ne o k _ k1 (fun hc => hk hc.symm)]
          | null => rw [setNestedJ, hl] at h; exact absurd h (by simp)
          | bool b => rw [setNestedJ, hl] at h; exact absurd h (by simp)
          | num q => rw [setNestedJ, hl] at h; exact absurd h (by simp)
          | str s => rw [setNestedJ, hl] at h; exact absurd h (by simp)
          | arr l => rw [setNestedJ, hl] at h; exact absurd h (by simp)

theorem lookupO_append (x y : List (String × Json)) (k : String) :
    lookupO (x ++ y) k =
      match lookupO x k with
      | some v => some v
      | none => lookupO y k := by
  induction x with
  | nil => simp [lookupO]
  | cons p rest ih => by_cases h : p.1 = k <;> simp [lookupO_cons, h, ih]

theorem lookupO_map_getD (a b : List (String × Json)) (k : String) :
    lookupO (a.map (fun p => (p.1, (lookupO b p.1).getD p.2))) k =
      (lookupO a k).map (fun v => (lookupO b k).getD v) := by
  induction a with
  | nil => simp [lookupO]
  | cons p rest ih => by_cases h : p.1 = k <;> simp [lookupO_cons, h, ih]

theorem lookupO_filter_negKey (b a : List (String × Json)) (k : String) :
    lookupO (b.filter (fun p => !hasKey a p.1)) k =
      if hasKey a k then none else lookupO b k := by
  induction b with
  | nil => simp [lookupO]
  | cons p rest ih =>
    by_cases h : p.1 = k
    · by_cases hk : hasKey a k
      · simp [List.filter_cons, h, hk, ih]
      · simp [List.filter_cons, h, hk, lookupO_cons]
    · by_cases hp : hasKey a p.1
      · by_cases hk : hasKey a k <;>
          simp [List.filter_cons, hp, ih, hk, lookupO_cons, h]
      · by_cases hk : hasKey a k <;>
          simp [List.filter_cons, hp, lookupO_cons, h, ih, hk]

/-- Lookup in a Python dict merge `{**a, **b}`: the value from `b` wins
when both have the key. -/
theorem lookupO_pyMerge (a b : List (String × Json)) (k : String) :
    lookupO (pyMerge a b) k =
      match lookupO a k with
      | some v => some ((lookupO b k).getD v)
      | none => lookupO b k := by
  unfold pyMerge
  rw [lookupO_append, lookupO_map_getD, lookupO_filter_negKey]
  cases h : lookupO a k <;> simp [hasKey, h]

theorem lookupO_pyMerge_right (a b : List (String × Json)) (k : String)
    (w : Json) (h : lookupO b k = some w) :
    lookupO (pyMerge a b) k = some w := by
  rw [lookupO_pyMerge]
  cases ha : lookupO a k <;> simp [h]

/-! Lemmas about the rule loop. -/

/-- A successful rule loop does not disturb reads along a path diverging
from every written canonical path. -/
theorem foldl_rules_preserve (pn : String)
    (payload : List (String × Json)) (cpks : List String) :
    ∀ (rules : List (String × String)) (d d' : List (String × Json)),
      List.foldlM (applyRuleStep pn payload) d rules = some d' →
      (∀ r ∈ rules, diverges (splitPath r.2) cpks = true) →
      getNestedJ (.obj d') cpks = getNestedJ (.obj d) cpks := by
  intro rules
  induction rules with
  | nil =>
    intro d d' h _
    simp only [List.foldlM_nil, Option.pure_def, Option.some.injEq] at h
    rw [h]
  | cons r rest ih =>
    intro d d' h hdiv
    rw [List.foldlM_cons] at h
    rcases Option.bind_eq_some.mp h with ⟨d1, hstep, hrest⟩
    rw [ih d1 d' hrest (fun r' hr' => hdiv r' (List.mem_cons_of_mem _ hr'))]
    unfold applyRuleStep at hstep
    by_cases hnull : (getNestedValue (.obj payload) r.1).isNull = true
    · rw [if_pos hnull] at hstep
      cases hstep
      rfl
    · rw [if_neg hnull] at hstep
      rcases Option.bind_eq_some.mp hstep with ⟨w, _, hset⟩
      exact getNestedJ_setNestedJ_frame (splitPath r.2) d d1 w cpks hset
        (hdiv r (List.mem_cons_self r rest))

/-- A successful rule loop writes, at each rule's canonical path, the
(possibly transformed) value read at the rule's provider path, provided
the read was non-null and the canonical paths are pairwise divergent. -/
theorem foldl_rules_get (pn : String) (payload : List (String × Json)) :
    ∀ (rules : List (String × String)) (d d' : List (String × Json))
      (pp cp : String),
      List.foldlM (applyRuleStep pn payload) d rules = some d' →
      (pp, cp) ∈ rules →
      List.Pairwise
        (fun r1 r2 =>
          diverges (splitPath r1.2) (splitPath r2.2) = true) rules →
      (getNestedValue (.obj payload) pp).isNull = false →
      ∃ w, ruleTransform pn pp (getNestedValue (.obj payload) pp) = some w ∧
        getNestedJ (.obj d') (splitPath cp) = some w := by
  intro rules
  induction rules with
  | nil => intro d d' pp cp _ hmem; exact absurd hmem (by simp)
  | cons r rest ih =>
    intro d d' pp cp h hmem hpair hnn
    rw [List.foldlM_cons] at h
    rcases Option.bind_eq_some.mp h with ⟨d1, hstep, hrest⟩
    rcases List.mem_cons.mp hmem with heq | hmem'
    · have hr : r = (pp, cp) := heq.symm
      subst hr
      unfold applyRuleStep at hstep
      rw [if_neg (by simp [hnn])] at hstep
      rcases Option.bind_eq_some.mp hstep with ⟨w, hw, hset⟩
      refine ⟨w, hw, ?_⟩
      have hget1 : getNestedJ (.obj d1) (splitPath cp) = some w :=
        getNestedJ_setNestedJ_self _ _ _ _ hset
      have hdivs : ∀ r' ∈ rest,
          diverges (splitPath r'.2) (splitPath cp) = true := by
        intro r' hr'
        rw [diverges_comm]
        exact (List.pairwise_cons.mp hpair).1 r' hr'
      rw [foldl_rules_preserve pn payload (splitPath cp) rest d1 d'
        hrest hdivs, hget1]
    · exact ih d1 d' pp cp hrest hmem' (List.pairwise_cons.mp hpair).2 hnn

/-! Lemmas about the assembled canonical message. -/

theorem getNestedJ_obj_cons (o : List (String × Json)) (k : String)
    (ks : List String) (v : Json) (h : lookupO o k = some v) :
    getNestedJ (.obj o) (k :: ks) = getNestedJ v ks := by
  rw [getNestedJ, h]

theorem assembleVcp_inv (now uuid pn : String)
    (payload vcp_data : List (String × Json)) (r : Json)
    (h : assembleVcp now uuid pn payload vcp_data = some r) :
    ∃ session_id callSec outSec integ,
      getSection vcp_data "call" = some callSec ∧
      getSection vcp_data "outcomes" = some outSec ∧
      (if pn = "assistable" then build_integrations_data pn payload
       else some []) = some integ ∧
      r = buildMessage now pn payload vcp_data
        (if (getNestedValue (.obj vcp_data) "call.call_id").truthy then
          getNestedValue (.obj vcp_data) "call.call_id" else .str uuid)
        session_id callSec outSec integ := by
  unfold assembleVcp at h
  rcases Option.bind_eq_some.mp h with ⟨sid, _, h⟩
  rcases Option.bind_eq_some.mp h with ⟨cs, hcs, h⟩
  rcases Option.bind_eq_some.mp h with ⟨os, hos, h⟩
  rcases Option.bind_eq_some.mp h with ⟨ig, hig, h⟩
  cases h
  exact ⟨sid, cs, os, ig, hcs, hos, hig, rfl⟩

theorem buildMessage_call_get (now pn : String)
    (payload vcp_data : List (String × Json)) (cid sid : Json)
    (callSec outSec integ : List (String × Json)) (k : String)
    (ks : List String) (v : Json) (hk : lookupO callSec k = some v) :
    getNestedJ (buildMessage now pn payload vcp_data cid sid callSec
      outSec integ) ("vcp_payload" :: "call" :: k :: ks) =
      getNestedJ v ks := by
  have h1 : getNestedJ (buildMessage now pn payload vcp_data cid sid
      callSec outSec integ) ("vcp_payload" :: "call" :: k :: ks) =
      getNestedJ (callSection now pn cid sid callSec) (k :: ks) := rfl
  rw [h1, callSection,
    getNestedJ_obj_cons _ _ _ _ (lookupO_pyMerge_right _ _ _ _ hk)]

theorem buildMessage_outcomes_get (now pn : String)
    (payload vcp_data : List (String × Json)) (cid sid : Json)
    (callSec outSec integ : List (String × Json)) (k : String)
    (ks : List String) (v : Json) (hk : lookupO outSec k = some v) :
    getNestedJ (buildMessage now pn payload vcp_data cid sid callSec
      outSec integ) ("vcp_payload" :: "outcomes" :: k :: ks) =
      getNestedJ v ks := by
  have h1 : getNestedJ (buildMessage now pn payload vcp_data cid sid
      callSec outSec integ) ("vcp_payload" :: "outcomes" :: k :: ks) =
      getNestedJ (outcomesSection outSec) (k :: ks) := rfl
  rw [h1, outcomesSection,
    getNestedJ_obj_cons _ _ _ _ (lookupO_pyMerge_right _ _ _ _ hk)]

theorem buildMessage_artifacts_get (now pn : String)
    (payload vcp_data : List (String × Json)) (cid sid : Json)
    (callSec outSec integ : List (String × Json)) (ks : List String) :
    getNestedJ (buildMessage now pn payload vcp_data cid sid callSec
      outSec integ) ("vcp_payload" :: "artifacts" :: ks) =
      getNestedJ (pyGet vcp_data "artifacts" (.obj [])) ks := rfl

theorem buildMessage_custom_get (now pn : String)
    (payload vcp_data : List (String × Json)) (cid sid : Json)
    (callSec outSec integ : List (String × Json)) (ks : List String)
    (hig : lookupO integ "provider_specific" = none) :
    getNestedJ (buildMessage now pn payload vcp_data cid sid callSec
      outSec integ)
      ("vcp_payload" :: "custom" :: "provider_specific" :: ks) =
      getNestedJ
        (.obj [(pn, build_provider_specific_data pn payload)]) ks := by
  have h1 : getNestedJ (buildMessage now pn payload vcp_data cid sid
      callSec outSec integ)
      ("vcp_payload" :: "custom" :: "provider_specific" :: ks) =
      getNestedJ (customSection pn payload integ)
        ("provider_specific" :: ks) := rfl
  have h2 : lookupO (pyMerge
      [("provider_specific",
        Json.obj [(pn, build_provider_specific_data pn payload)])] integ)
      "provider_specific" =
      some (.obj [(pn, build_provider_specific_data pn payload)]) := by
    rw [lookupO_pyMerge]
    simp [lookupO_cons, hig]
  rw [h1, customSection, getNestedJ_obj_cons _ _ _ _ h2]

/-- The integrations dict never carries a `provider_specific` key: it is
either empty or the single-key dict `{"integrations": ...}`. -/
theorem build_integrations_no_ps (pn : String)
    (payload io : List (String × Json))
    (h : build_integrations_data pn payload = some io) :
    lookupO io "provider_specific" = none := by
  unfold build_integrations_data at h
  by_cases h1 : pn ≠ "assistable"
  · rw [if_pos h1] at h
    cases h
    rfl
  · rw [if_neg h1] at h
    by_cases h2 : (!(pyGet payload "extractions" (Json.obj [])).truthy)
        = true
    · rw [if_pos h2] at h
      cases h
      rfl
    · rw [if_neg h2] at h
      rcases Option.bind_eq_some.mp h with ⟨c1, _, h⟩
      rcases Option.bind_eq_some.mp h with ⟨crmCond, _, h⟩
      rcases Option.bind_eq_some.mp h with ⟨integ1, _, h⟩
      rcases Option.bind_eq_some.mp h with ⟨c2, _, h⟩
      rcases Option.bind_eq_some.mp h with ⟨integ2, _, h⟩
      rcases Option.bind_eq_some.mp h with ⟨items, _, h⟩
      have key : ∀ (b : Bool) (X : Json) (io' : List (String × Json)),
          (if b = true then some [] else
            some (objInsert [] "integrations" X)) = some io' →
          lookupO io' "provider_specific" = none := by
        intro b X io' hb
        cases b
        · simp only [Bool.false_eq_true, if_false, Option.some.injEq] at hb
          subst hb
          simp [objInsert, hasKey, lookupO_cons, lookupO_nil]
        · rw [if_pos rfl] at hb
          cases hb
          rfl
      exact key _ _ _ h

theorem map_to_vcp_inv (now uuid pn : String)
    (payload : List (String × Json)) (prov : ProviderInfo) (r : Json)
    (hprov : get_provider pn = some prov)
    (hne : prov.vcp_mapping_rules.isEmpty = false)
    (h : map_to_vcp now uuid pn payload = some r) :
    ∃ d, applyRules pn payload prov.vcp_mapping_rules = some d ∧
      assembleVcp now uuid pn payload d = some r := by
  unfold map_to_vcp at h
  simp only [hprov] at h
  rw [if_neg (by simp [hne])] at h
  cases hd : applyRules pn payload prov.vcp_mapping_rules with
  | none => rw [hd] at h; exact absurd h (by simp)
  | some d => rw [hd] at h; exact ⟨d, rfl, h⟩

theorem lookupQ_eq_none (l : List (String × ℚ)) (k : String)
    (h : k ∉ l.map Prod.fst) : lookupQ l k = none := by
  induction l with
  | nil => rfl
  | cons p rest ih =>
    rcases p with ⟨k', v⟩
    simp only [List.map_cons, List.mem_cons] at h
    push_neg at h
    simp only [lookupQ]
    rw [if_neg (fun hc => h.1 hc.symm)]
    exact ih h.2

/-! Claim theorems. -/

/-- C1: the spec requires that a provider whose authentication scheme is
not the implemented HMAC-SHA256 validation must make
`validate_webhook_signature` return `False`; the source instead contains
"return True  # Placeholder" for retell's signature-header scheme, so
every payload/signature/secret is accepted for retell.  This theorem
evaluates the code at the failing inputs. -/
theorem retell_signature_always_accepted
    (hmacHex : String → String → String) (payload signature : String)
    (secret : Option String) :
    validate_webhook_signature hmacHex "retell" payload signature secret =
      some true := rfl

/-- C3 counterexample: on the container `{"a": 1}` with path `"a.b"` the
claimed silent overwrite does not happen — `_set_nested_value` raises
`TypeError` (modelled as `none`), so `get(set(c, path, v), path) == v`
also fails to hold at this input. -/
theorem set_on_nonmap_raises :
    setNestedValue [("a", Json.num 1)] "a.b" (Json.str "v") = none := by
  unfold setNestedValue
  rfl

/-- C3 (amended): the path-accessor laws that hold on the code: the
roundtrip law `get(set(c, path, v), path) == v` holds whenever the write
succeeds; `get` on the empty container with path "a.b.c" is absent; a
non-map encountered along the path is treated as absent on read; but on
write a non-map along the path is a raised `TypeError` (modelled as
failure), not a silent overwrite. -/
theorem path_accessor_laws :
    (∀ (c : List (String × Json)) (path : String) (v : Json)
       (c' : List (String × Json)),
       setNestedValue c path v = some c' →
       getNestedValue (.obj c') path = v)
    ∧ getNestedValue (.obj []) "a.b.c" = Json.null
    ∧ (∀ (o : List (String × Json)) (k : String) (ks : List String)
         (w : Json), lookupO o k = some w → w.isObj = false → ks ≠ [] →
         getNestedJ (.obj o) (k :: ks) = none)
    ∧ (∀ (o : List (String × Json)) (k : String) (ks : List String)
         (w v : Json), lookupO o k = some w → w.isObj = false → ks ≠ [] →
         setNestedJ o (k :: ks) v = none) := by
  refine ⟨?_, ?_, ?_, ?_⟩
  case refine_2 =>
    unfold getNestedValue
    rfl
  · intro c path v c' h
    unfold getNestedValue
    rw [getNestedJ_setNestedJ_self (splitPath path) c c' v h]
    rfl
  · intro o k ks w hl hobj hks
    cases ks with
    | nil => exact absurd rfl hks
    | cons k2 ks2 =>
      rw [getNestedJ, hl]
      cases w with
      | obj oo => simp [Json.isObj] at hobj
      | null => rfl
      | bool b => rfl
      | num q => rfl
      | str s => rfl
      | arr l => rfl
  · intro o k ks w v hl hobj hks
    cases ks with
    | nil => exact absurd rfl hks
    | cons k2 ks2 =>
      rw [setNestedJ, hl]
      cases w with
      | obj oo => simp [Json.isObj] at hobj
      | null => rfl
      | bool b => rfl
      | num q => rfl
      | str s => rfl
      | arr l => rfl

/-- Concrete check of the C3 laws. -/
theorem path_accessor_laws_check :
    getNestedValue (.obj [("x", Json.obj [("y", Json.num 3)])]) "x.y" =
      Json.num 3
    ∧ getNestedJ (.obj [("a", Json.num 1)]) ["a", "b"] = none
    ∧ setNestedJ [("a", Json.num 1)] ["a", "b"] (Json.str "v") = none := by
  refine ⟨path_accessor_laws.1 [] "x.y" (Json.num 3)
     [("x", Json.obj [("y", Json.num 3)])] ?_,
   path_accessor_laws.2.2.1 [("a", Json.num 1)] "a" ["b"] (Json.num 1)
     rfl rfl (by simp),
   path_accessor_laws.2.2.2 [("a", Json.num 1)] "a" ["b"] (Json.num 1)
     (Json.str "v") rfl rfl (by simp)⟩
  unfold setNestedValue
  rfl

/-- C4 counterexample: the claim puts `slightly_positive` (the fifth
bucket) at 4/6; the code maps it to 0.6 = 3/5, which is not 4/6, so the
buckets do not run in equal steps of 1/6. -/
theorem sentiment_not_sixth_steps :
    convert_sentiment_to_score "slightly_positive" = mkRat 3 5 ∧
    (mkRat 3 5 : ℚ) ≠ mkRat 4 6 := ⟨by decide, by decide⟩

/-- C4 (amended): the sentiment transform is a seven-bucket ordinal
mapping with scores 0, 0.2, 0.4, 0.5, 0.6, 0.8, 1.0 (not equal 1/6
steps), it is case-insensitive on the label, and every label whose
lowercase form is not one of the seven buckets maps to 0.5. -/
theorem sentiment_bucket_scores :
    (convert_sentiment_to_score "very_negative" = 0 ∧
     convert_sentiment_to_score "negative" = mkRat 1 5 ∧
     convert_sentiment_to_score "slightly_negative" = mkRat 2 5 ∧
     convert_sentiment_to_score "neutral" = mkRat 1 2 ∧
     convert_sentiment_to_score "slightly_positive" = mkRat 3 5 ∧
     convert_sentiment_to_score "positive" = mkRat 4 5 ∧
     convert_sentiment_to_score "very_positive" = 1) ∧
    (∀ s t : String, pyLower s = pyLower t →
      convert_sentiment_to_score s = convert_sentiment_to_score t) ∧
    (∀ s : String, pyLower s ∉
        ["very_positive", "positive", "slightly_positive", "neutral",
         "slightly_negative", "negative", "very_negative"] →
      convert_sentiment_to_score s = mkRat 1 2) := by
  refine ⟨by decide, ?_, ?_⟩
  · intro s t h
    unfold convert_sentiment_to_score
    rw [h]
  · intro s h
    have hnone : lookupQ sentiment_mapping (pyLower s) = none := by
      apply lookupQ_eq_none
      simpa [sentiment_mapping] using h
    unfold convert_sentiment_to_score
    rw [hnone]
    rfl

/-- Concrete check of the C4 properties. -/
theorem sentiment_bucket_scores_check :
    convert_sentiment_to_score "Slightly_Positive" =
      convert_sentiment_to_score "slightly_positive" ∧
    convert_sentiment_to_score "mixed" = mkRat 1 2 :=
  ⟨sentiment_bucket_scores.2.1 "Slightly_Positive" "slightly_positive"
     (by decide),
   sentiment_bucket_scores.2.2 "mixed" (by decide)⟩

/-- C5: the disconnect-reason transform checks its substring groups in the
fixed priority order success > timeout > error > partial, falling back to
"failure"; and the three concrete scenarios of the spec evaluate as
claimed (0.6 being the exact rational 3/5). -/
theorem disconnect_priority_and_scenarios :
    (∀ r : String,
      anyTermIn (pyLower r) ["completed", "success", "finished"] = true →
      convert_disconnection_to_status r = "success") ∧
    (∀ r : String,
      anyTermIn (pyLower r) ["completed", "success", "finished"] = false →
      anyTermIn (pyLower r) ["timeout", "no_answer", "busy"] = true →
      convert_disconnection_to_status r = "timeout") ∧
    (∀ r : String,
      anyTermIn (pyLower r) ["completed", "success", "finished"] = false →
      anyTermIn (pyLower r) ["timeout", "no_answer", "busy"] = false →
      anyTermIn (pyLower r) ["error", "failed", "connection"] = true →
      convert_disconnection_to_status r = "error") ∧
    (∀ r : String,
      anyTermIn (pyLower r) ["completed", "success", "finished"] = false →
      anyTermIn (pyLower r) ["timeout", "no_answer", "busy"] = false →
      anyTermIn (pyLower r) ["error", "failed", "connection"] = false →
      anyTermIn (pyLower r) ["partial", "incomplete"] = true →
      convert_disconnection_to_status r = "partial") ∧
    (∀ r : String,
      anyTermIn (pyLower r) ["completed", "success", "finished"] = false →
      anyTermIn (pyLower r) ["timeout", "no_answer", "busy"] = false →
      anyTermIn (pyLower r) ["error", "failed", "connection"] = false →
      anyTermIn (pyLower r) ["partial", "incomplete"] = false →
      convert_disconnection_to_status r = "failure") ∧
    convert_disconnection_to_status
      "customer completed booking after transfer" = "success" ∧
    convert_disconnection_to_status "line busy, no answer" = "timeout" ∧
    convert_sentiment_to_score "Slightly_Positive" = mkRat 3 5 := by
  refine ⟨?_, ?_, ?_, ?_, ?_, by decide, by decide, by decide⟩
  · intro r h1
    simp [convert_disconnection_to_status, h1]
  · intro r h1 h2
    simp [convert_disconnection_to_status, h1, h2]
  · intro r h1 h2 h3
    simp [convert_disconnection_to_status, h1, h2, h3]
  · intro r h1 h2 h3 h4
    simp [convert_disconnection_to_status, h1, h2, h3, h4]
  · intro r h1 h2 h3 h4
    simp [convert_disconnection_to_status, h1, h2, h3, h4]

/-- Concrete check of the C5 priority clauses. -/
theorem disconnect_priority_and_scenarios_check :
    convert_disconnection_to_status "completed" = "success" ∧
    convert_disconnection_to_status "busy" = "timeout" ∧
    convert_disconnection_to_status "failed" = "error" ∧
    convert_disconnection_to_status "incomplete" = "partial" ∧
    convert_disconnection_to_status "odd" = "failure" :=
  ⟨disconnect_priority_and_scenarios.1 "completed" (by decide),
   disconnect_priority_and_scenarios.2.1 "busy" (by decide) (by decide),
   disconnect_priority_and_scenarios.2.2.1 "failed" (by decide)
     (by decide) (by decide),
   disconnect_priority_and_scenarios.2.2.2.1 "incomplete" (by decide)
     (by decide) (by decide) (by decide),
   disconnect_priority_and_scenarios.2.2.2.2.1 "odd" (by decide)
     (by decide) (by decide) (by decide)⟩

/-- C6: the three value transforms are total Lean functions of the string
input (so they never raise), and their results stay in the documented
ranges: sentiment scores lie in [0, 1], channels in
{phone, web, api, websocket}, statuses in
{success, timeout, error, partial, failure}; unrecognized input lands on
the documented default by the same case analysis. -/
theorem transforms_total :
    (∀ s : String, 0 ≤ convert_sentiment_to_score s ∧
      convert_sentiment_to_score s ≤ 1) ∧
    (∀ s : String, convert_direction_to_channel s ∈
      (["phone", "web", "api", "websocket"] : List String)) ∧
    (∀ s : String, convert_disconnection_to_status s ∈
      (["success", "timeout", "error", "partial", "failure"] :
        List String)) := by
  refine ⟨?_, ?_, ?_⟩
  · intro s
    unfold convert_sentiment_to_score
    simp only [sentiment_mapping, lookupQ]
    split_ifs <;> norm_num [Rat.mkRat_eq_div]
  · intro s
    unfold convert_direction_to_channel
    simp only [direction_mapping, lookupS]
    split_ifs <;> simp
  · intro s
    simp only [convert_disconnection_to_status]
    split_ifs <;> simp

theorem getNestedJ_obj_single (o : List (String × Json)) (k : String) :
    getNestedJ (.obj o) [k] = lookupO o k := by
  cases hl : lookupO o k <;> simp [getNestedJ, hl]

/-- The capability loop of `validate_v05` never emits a warning: every
entry fails the `isinstance(capability, dict)` guard. -/
theorem capabilityWarnings_eq_nil (st : Int) :
    ∀ caps : List CapEntryV05, capabilityWarnings st caps = [] := by
  intro caps
  induction caps with
  | nil => rfl
  | cons c rest ih => simp [capabilityWarnings, CapEntryV05.isPyDict, ih]

/-- C9 counterexample: a message whose only capability record is invoked
before call start (invoked_at = -5 < start_time = 0) yields no warning
and no error: the before-start check is guarded by
`isinstance(capability, dict)`, which is never true for parsed capability
entries, so the claim that such a message "produces only a warning"
fails — it produces nothing. -/
theorem capability_before_start_unflagged :
    validate_v05
      ⟨⟨⟨"c1", 0, none, [CapEntryV05.record ⟨"cap1", -5, true⟩]⟩, none⟩⟩ =
      ([], []) := rfl

/-- C9 (amended): `validate_v05` returns errors and warnings as data, it
is a pure total function of the message (so it never raises and never
mutates); revoked consent yields an error, end-time before start-time
yields an error, expired consent yields only a warning (any error then
present can only be the end-time one); and a capability invoked before
call start yields neither error nor warning — the only possible warning
at all is the expired-consent one. -/
theorem validate_v05_behaviour (m : VCPMessageV05) :
    (∀ c, m.vcp_payload.consent = some c →
      c.status = ConsentStatusV05.revoked →
      "Cannot process data with revoked consent" ∈ (validate_v05 m).1) ∧
    (∀ e, m.vcp_payload.call.end_time = some e →
      e < m.vcp_payload.call.start_time →
      "Call end_time cannot be before start_time" ∈ (validate_v05 m).1) ∧
    (∀ c, m.vcp_payload.consent = some c →
      c.status = ConsentStatusV05.expired →
      "User consent has expired" ∈ (validate_v05 m).2 ∧
      ∀ err ∈ (validate_v05 m).1,
        err = "Call end_time cannot be before start_time") ∧
    (∀ w ∈ (validate_v05 m).2, w = "User consent has expired") := by
  rcases m with ⟨⟨⟨cid, st, et, caps⟩, consent⟩⟩
  refine ⟨?_, ?_, ?_, ?_⟩
  · intro c hc hrev
    subst hc
    cases et with
    | none => simp [validate_v05, capabilityWarnings_eq_nil, hrev]
    | some e =>
      by_cases he : e < st <;>
        simp [validate_v05, capabilityWarnings_eq_nil, hrev, he]
  · intro e he hlt
    dsimp only at he hlt
    subst he
    cases consent with
    | none => simp [validate_v05, capabilityWarnings_eq_nil, hlt]
    | some c =>
      cases hs : c.status <;>
        simp [validate_v05, capabilityWarnings_eq_nil, hlt, hs]
  · intro c hc hexp
    subst hc
    cases et with
    | none =>
      simp [validate_v05, capabilityWarnings_eq_nil, hexp]
    | some e =>
      by_cases he : e < st <;>
        simp [validate_v05, capabilityWarnings_eq_nil, hexp, he]
  · intro w hw
    cases consent with
    | none =>
      simp [validate_v05, capabilityWarnings_eq_nil] at hw
    | some c =>
      cases hs : c.status <;>
        simp [validate_v05, capabilityWarnings_eq_nil, hs] at hw
      exact hw

theorem getNestedJ_obj_cons_none (o : List (String × Json)) (k : String)
    (ks : List String) (h : lookupO o k = none) :
    getNestedJ (.obj o) (k :: ks) = none := by
  rw [getNestedJ, h]

/-- A mapped value whose canonical path starts at a merged section
("call" or "outcomes") reaches the assembled message at that path. -/
theorem mapped_rule_merged_section (pn : String) (prov : ProviderInfo)
    (hprov : get_provider pn = some prov)
    (hne : prov.vcp_mapping_rules.isEmpty = false)
    (hpair : List.Pairwise (fun r1 r2 =>
      diverges (splitPath r1.2) (splitPath r2.2) = true)
      prov.vcp_mapping_rules)
    (pp cp sec k : String) (ks : List String)
    (hmem : (pp, cp) ∈ prov.vcp_mapping_rules)
    (hsplit : splitPath cp = sec :: k :: ks)
    (hsec : sec = "call" ∨ sec = "outcomes")
    (now uuid : String) (payload : List (String × Json)) (r : Json)
    (hmap : map_to_vcp now uuid pn payload = some r)
    (hnn : (getNestedValue (.obj payload) pp).isNull = false) :
    ∃ w, ruleTransform pn pp (getNestedValue (.obj payload) pp) = some w ∧
      getNestedJ r ("vcp_payload" :: splitPath cp) = some w := by
  rcases map_to_vcp_inv now uuid pn payload prov r hprov hne hmap with
    ⟨d, hd, hasm⟩
  rcases foldl_rules_get pn payload prov.vcp_mapping_rules [] d pp cp hd
    hmem hpair hnn with ⟨w, hw, hget⟩
  refine ⟨w, hw, ?_⟩
  rcases assembleVcp_inv now uuid pn payload d r hasm with
    ⟨sid, callSec, outSec, integ, hcs, hos, hig, hreq⟩
  subst hreq
  rw [hsplit] at hget ⊢
  cases hl1 : lookupO d sec with
  | none =>
    rw [getNestedJ_obj_cons_none _ _ _ hl1] at hget
    exact absurd hget (by simp)
  | some v1 =>
    rw [getNestedJ_obj_cons _ _ _ _ hl1] at hget
    cases v1 with
    | obj so =>
      cases hl2 : lookupO so k with
      | none =>
        rw [getNestedJ_obj_cons_none _ _ _ hl2] at hget
        exact absurd hget (by simp)
      | some v2 =>
        rw [getNestedJ_obj_cons _ _ _ _ hl2] at hget
        rcases hsec with hsec | hsec
        · subst hsec
          have hsecEq : callSec = so := by
            unfold getSection at hcs
            rw [hl1] at hcs
            exact ((Option.some.injEq _ _).mp hcs).symm
          subst hsecEq
          rw [buildMessage_call_get now pn payload d _ sid _ outSec integ
            k ks v2 hl2]
          exact hget
        · subst hsec
          have hsecEq : outSec = so := by
            unfold getSection at hos
            rw [hl1] at hos
            exact ((Option.some.injEq _ _).mp hos).symm
          subst hsecEq
          rw [buildMessage_outcomes_get now pn payload d _ sid callSec _
            integ k ks v2 hl2]
          exact hget
    | null => simp [getNestedJ] at hget
    | bool b => simp [getNestedJ] at hget
    | num q => simp [getNestedJ] at hget
    | str s => simp [getNestedJ] at hget
    | arr l => simp [getNestedJ] at hget

/-- A mapped value whose canonical path starts at the artifacts section
reaches the assembled message at that path. -/
theorem mapped_rule_artifacts_section (pn : String) (prov : ProviderInfo)
    (hprov : get_provider pn = some prov)
    (hne : prov.vcp_mapping_rules.isEmpty = false)
    (hpair : List.Pairwise (fun r1 r2 =>
      diverges (splitPath r1.2) (splitPath r2.2) = true)
      prov.vcp_mapping_rules)
    (pp cp k : String) (ks : List String)
    (hmem : (pp, cp) ∈ prov.vcp_mapping_rules)
    (hsplit : splitPath cp = "artifacts" :: k :: ks)
    (now uuid : String) (payload : List (String × Json)) (r : Json)
    (hmap : map_to_vcp now uuid pn payload = some r)
    (hnn : (getNestedValue (.obj payload) pp).isNull = false) :
    ∃ w, ruleTransform pn pp (getNestedValue (.obj payload) pp) = some w ∧
      getNestedJ r ("vcp_payload" :: splitPath cp) = some w := by
  rcases map_to_vcp_inv now uuid pn payload prov r hprov hne hmap with
    ⟨d, hd, hasm⟩
  rcases foldl_rules_get pn payload prov.vcp_mapping_rules [] d pp cp hd
    hmem hpair hnn with ⟨w, hw, hget⟩
  refine ⟨w, hw, ?_⟩
  rcases assembleVcp_inv now uuid pn payload d r hasm with
    ⟨sid, callSec, outSec, integ, hcs, hos, hig, hreq⟩
  subst hreq
  rw [hsplit] at hget ⊢
  rw [buildMessage_artifacts_get]
  cases hl1 : lookupO d "artifacts" with
  | none =>
    rw [getNestedJ_obj_cons_none _ _ _ hl1] at hget
    exact absurd hget (by simp)
  | some v1 =>
    rw [getNestedJ_obj_cons _ _ _ _ hl1] at hget
    unfold pyGet
    rw [hl1]
    exact hget

/-- A single-segment provider-path read that is non-null is a present
top-level key of the payload. -/
theorem lookup_of_single_read (payload : List (String × Json))
    (pp : String) (hs : splitPath pp = [pp])
    (hnn : (getNestedValue (.obj payload) pp).isNull = false) :
    lookupO payload pp = some (getNestedValue (.obj payload) pp) := by
  unfold getNestedValue
  rw [hs, getNestedJ_obj_single]
  cases hl : lookupO payload pp with
  | none =>
    exfalso
    unfold getNestedValue at hnn
    rw [hs, getNestedJ_obj_single, hl] at hnn
    simp [Json.isNull] at hnn
  | some v => rfl

/-- For assistable's four custom rules, the same value the rule loop would
have carried reappears in the output via
`_build_provider_specific_data`. -/
theorem mapped_rule_custom_assistable (prov : ProviderInfo)
    (hprov : get_provider "assistable" = some prov)
    (hne : prov.vcp_mapping_rules.isEmpty = false)
    (pp dst : String)
    (hcase : (pp = "extractions" ∧ dst = "extractions") ∨
             (pp = "args" ∧ dst = "call_args") ∨
             (pp = "metadata" ∧ dst = "metadata") ∨
             (pp = "call_type" ∧ dst = "call_type"))
    (now uuid : String) (payload : List (String × Json)) (r : Json)
    (hmap : map_to_vcp now uuid "assistable" payload = some r)
    (hnn : (getNestedValue (.obj payload) pp).isNull = false) :
    getNestedJ r ["vcp_payload", "custom", "provider_specific",
      "assistable", dst] = some (getNestedValue (.obj payload) pp) := by
  rcases map_to_vcp_inv now uuid "assistable" payload prov r hprov hne
    hmap with ⟨d, _, hasm⟩
  rcases assembleVcp_inv now uuid "assistable" payload d r hasm with
    ⟨sid, callSec, outSec, integ, hcs, hos, hig, hreq⟩
  subst hreq
  have hig' : build_integrations_data "assistable" payload = some integ :=
    by simpa using hig
  have hnops := build_integrations_no_ps "assistable" payload integ hig'
  have hsingle : splitPath pp = [pp] := by
    rcases hcase with ⟨h1, _⟩ | ⟨h1, _⟩ | ⟨h1, _⟩ | ⟨h1, _⟩ <;>
      subst h1 <;> decide
  have hlook := lookup_of_single_read payload pp hsingle hnn
  have hbm := buildMessage_custom_get now "assistable" payload d
    (if (getNestedValue (.obj d) "call.call_id").truthy then
      getNestedValue (.obj d) "call.call_id" else .str uuid)
    sid callSec outSec integ ["assistable", dst] hnops
  rw [show (["vcp_payload", "custom", "provider_specific", "assistable",
      dst] : List String) =
    "vcp_payload" :: "custom" :: "provider_specific" ::
      ["assistable", dst] from rfl, hbm,
    getNestedJ_obj_cons _ _ _ _ (show lookupO
      [("assistable", build_provider_specific_data "assistable" payload)]
      "assistable" =
      some (build_provider_specific_data "assistable" payload) from by
        simp [lookupO_cons])]
  rcases hcase with ⟨h1, h2⟩ | ⟨h1, h2⟩ | ⟨h1, h2⟩ | ⟨h1, h2⟩ <;>
    subst h1 <;> subst h2 <;>
    (unfold build_provider_specific_data
     rw [if_pos (rfl : ("assistable" : String) = "assistable"),
       getNestedJ_obj_single]
     simp [lookupO_cons, pyGet, hlook])

/-- Wrapper turning `mapped_rule_merged_section` into a statement about
the dotted path read from the final message. -/
theorem mergedRuleFinal (pn : String) (prov : ProviderInfo)
    (hprov : get_provider pn = some prov)
    (hne : prov.vcp_mapping_rules.isEmpty = false)
    (hpair : List.Pairwise (fun r1 r2 =>
      diverges (splitPath r1.2) (splitPath r2.2) = true)
      prov.vcp_mapping_rules)
    (pp cp sec k : String) (ks : List String)
    (hmem : (pp, cp) ∈ prov.vcp_mapping_rules)
    (hsplit : splitPath cp = sec :: k :: ks)
    (hsplit2 : splitPath ("vcp_payload." ++ cp) =
      "vcp_payload" :: splitPath cp)
    (hsec : sec = "call" ∨ sec = "outcomes")
    (now uuid : String) (payload : List (String × Json)) (r : Json)
    (hmap : map_to_vcp now uuid pn payload = some r)
    (hnn : (getNestedValue (.obj payload) pp).isNull = false) :
    ∃ w, ruleTransform pn pp (getNestedValue (.obj payload) pp) = some w ∧
      getNestedValue r ("vcp_payload." ++ cp) = w := by
  obtain ⟨w, hw, hJ⟩ := mapped_rule_merged_section pn prov hprov hne hpair
    pp cp sec k ks hmem hsplit hsec now uuid payload r hmap hnn
  refine ⟨w, hw, ?_⟩
  unfold getNestedValue
  rw [hsplit2, hJ]
  rfl

/-- Wrapper turning `mapped_rule_artifacts_section` into a statement about
the dotted path read from the final message. -/
theorem artifactsRuleFinal (pn : String) (prov : ProviderInfo)
    (hprov : get_provider pn = some prov)
    (hne : prov.vcp_mapping_rules.isEmpty = false)
    (hpair : List.Pairwise (fun r1 r2 =>
      diverges (splitPath r1.2) (splitPath r2.2) = true)
      prov.vcp_mapping_rules)
    (pp cp k : String) (ks : List String)
    (hmem : (pp, cp) ∈ prov.vcp_mapping_rules)
    (hsplit : splitPath cp = "artifacts" :: k :: ks)
    (hsplit2 : splitPath ("vcp_payload." ++ cp) =
      "vcp_payload" :: splitPath cp)
    (now uuid : String) (payload : List (String × Json)) (r : Json)
    (hmap : map_to_vcp now uuid pn payload = some r)
    (hnn : (getNestedValue (.obj payload) pp).isNull = false) :
    ∃ w, ruleTransform pn pp (getNestedValue (.obj payload) pp) = some w ∧
      getNestedValue r ("vcp_payload." ++ cp) = w := by
  obtain ⟨w, hw, hJ⟩ := mapped_rule_artifacts_section pn prov hprov hne
    hpair pp cp k ks hmem hsplit now uuid payload r hmap hnn
  refine ⟨w, hw, ?_⟩
  unfold getNestedValue
  rw [hsplit2, hJ]
  rfl

/-- Wrapper turning `mapped_rule_custom_assistable` into a statement about
the dotted path read from the final message. -/
theorem customRuleFinal (prov : ProviderInfo)
    (hprov : get_provider "assistable" = some prov)
    (hne : prov.vcp_mapping_rules.isEmpty = false)
    (pp dst cp : String)
    (_hmem : (pp, cp) ∈ prov.vcp_mapping_rules)
    (hcase : (pp = "extractions" ∧ dst = "extractions") ∨
             (pp = "args" ∧ dst = "call_args") ∨
             (pp = "metadata" ∧ dst = "metadata") ∨
             (pp = "call_type" ∧ dst = "call_type"))
    (hsplit : splitPath cp =
      ["custom", "provider_specific", "assistable", dst])
    (hsplit2 : splitPath ("vcp_payload." ++ cp) =
      "vcp_payload" :: splitPath cp)
    (htrans : ∀ v, ruleTransform "assistable" pp v = some v)
    (now uuid : String) (payload : List (String × Json)) (r : Json)
    (hmap : map_to_vcp now uuid "assistable" payload = some r)
    (hnn : (getNestedValue (.obj payload) pp).isNull = false) :
    ∃ w, ruleTransform "assistable" pp
        (getNestedValue (.obj payload) pp) = some w ∧
      getNestedValue r ("vcp_payload." ++ cp) = w := by
  refine ⟨getNestedValue (.obj payload) pp, htrans _, ?_⟩
  have hJ := mapped_rule_custom_assistable prov hprov hne pp dst hcase
    now uuid payload r hmap hnn
  unfold getNestedValue
  rw [hsplit2, hsplit]
  rw [show ("vcp_payload" :: ["custom", "provider_specific", "assistable",
    dst] : List String) = ["vcp_payload", "custom", "provider_specific",
    "assistable", dst] from rfl, hJ]
  rfl

/-- The rule-loop stage of `map_to_vcp` in isolation (`none` both when the
provider is unknown or ruleless — cases in which `map_to_vcp` returns `{}`
without consulting the rules — and when the loop raises). -/
def applyRulesOf (pn : String) (payload : List (String × Json)) :
    Option (List (String × Json)) :=
  match get_provider pn with
  | none => none
  | some prov =>
    if prov.vcp_mapping_rules.isEmpty then none
    else applyRules pn payload prov.vcp_mapping_rules

/-- Whether the mapped data supplies a truthy `call.call_id`, so that
`map_to_vcp` does not draw a fresh uuid (`true` when the rule loop does
not run at all, as no uuid is drawn then either). -/
def truthyMappedCallId (pn : String)
    (payload : List (String × Json)) : Bool :=
  match applyRulesOf pn payload with
  | some d => (getNestedValue (.obj d) "call.call_id").truthy
  | none => true

/-- C7 counterexample: with the same clock reading "T", two invocations of
`map_to_vcp` on a payload that supplies no call identifier draw different
fresh uuids (`uuid.uuid4()` in the source) and produce different canonical
messages — the outputs differ at `vcp_payload.call.call_id`. -/
theorem map_fresh_uuid_nondeterministic :
    map_to_vcp "T" "u1" "retell" [] ≠ map_to_vcp "T" "u2" "retell" [] := by
  intro hcontra
  have h1 : Option.map
      (fun r => pyStr (getNestedValue r "vcp_payload.call.call_id"))
      (map_to_vcp "T" "u1" "retell" []) = some "u1" := by decide
  have h2 : Option.map
      (fun r => pyStr (getNestedValue r "vcp_payload.call.call_id"))
      (map_to_vcp "T" "u2" "retell" []) = some "u2" := by decide
  have h3 := congrArg (Option.map
    (fun r => pyStr (getNestedValue r "vcp_payload.call.call_id")))
    hcontra
  rw [h1, h2] at h3
  exact absurd h3 (by decide)

/-- C7 (amended): with the same injected clock, two invocations of
`map_to_vcp` return identical canonical messages whenever the rule loop
maps a truthy call identifier (so that no fresh uuid is drawn); only a
payload that supplies no call identifier makes the output depend on the
uuid draw. -/
theorem map_deterministic_with_call_id (now u1 u2 pn : String)
    (payload : List (String × Json))
    (h : truthyMappedCallId pn payload = true) :
    map_to_vcp now u1 pn payload = map_to_vcp now u2 pn payload := by
  unfold truthyMappedCallId applyRulesOf at h
  unfold map_to_vcp
  cases hp : get_provider pn with
  | none => rfl
  | some prov =>
    simp only [hp] at h ⊢
    by_cases hne : prov.vcp_mapping_rules.isEmpty = true
    · simp [hne]
    · have hne' : prov.vcp_mapping_rules.isEmpty = false := by
        simpa using hne
      simp only [hne', Bool.false_eq_true, if_false] at h ⊢
      cases hd : applyRules pn payload prov.vcp_mapping_rules with
      | none => rfl
      | some d =>
        simp only [hd] at h ⊢
        simp only [assembleVcp, h, eq_self_iff_true, if_true]

/-- Concrete check of C7 determinism when a call identifier is mapped. -/
theorem map_deterministic_with_call_id_check :
    truthyMappedCallId "retell"
      [("call", Json.obj [("call_id", Json.str "abc")])] = true ∧
    map_to_vcp "T" "uA" "retell"
        [("call", Json.obj [("call_id", Json.str "abc")])] =
      map_to_vcp "T" "uB" "retell"
        [("call", Json.obj [("call_id", Json.str "abc")])] :=
  ⟨by decide,
   map_deterministic_with_call_id "T" "uA" "uB" "retell" _ (by decide)⟩

/-- C10 counterexample: an explicit null and an absent field are NOT
indistinguishable at the mapper's public interface: the raw payload is
embedded verbatim at `custom.provider_specific.<provider>.data`, so the
two canonical outputs differ there even though the mapping rule is
skipped identically in both runs. -/
theorem null_vs_absent_distinguishable :
    map_to_vcp "T" "u" "retell"
        [("call", Json.obj [("transcript", Json.null)])] ≠
      map_to_vcp "T" "u" "retell" [("call", Json.obj [])] := by
  intro hcontra
  have h1 : Option.map (fun r => pyStr (getNestedValue r
        "vcp_payload.custom.provider_specific.retell.data"))
      (map_to_vcp "T" "u" "retell"
        [("call", Json.obj [("transcript", Json.null)])]) =
      some "\x7b\x27call\x27: \x7b\x27transcript\x27: None\x7d\x7d" := by
    decide
  have h2 : Option.map (fun r => pyStr (getNestedValue r
        "vcp_payload.custom.provider_specific.retell.data"))
      (map_to_vcp "T" "u" "retell" [("call", Json.obj [])]) =
      some "\x7b\x27call\x27: \x7b\x7d\x7d" := by decide
  have h3 := congrArg (Option.map (fun r => pyStr (getNestedValue r
    "vcp_payload.custom.provider_specific.retell.data"))) hcontra
  rw [h1, h2] at h3
  exact absurd h3 (by decide)

/-- C10 (amended): within the mapping-rule stage an explicit null source
value is treated exactly like an absent one: a rule whose provider-path
read is null leaves the intermediate data untouched (no transform is
applied, so the canonical defaults for that field remain), and the whole
rule loop depends on the payload only through those reads — which conflate
null and absent.  (At the full public interface the outputs still differ,
because the raw payload is embedded verbatim under
`custom.provider_specific`.) -/
theorem null_source_skipped_like_absent :
    (∀ (pn : String) (payload d : List (String × Json))
       (rule : String × String),
      (getNestedValue (.obj payload) rule.1).isNull = true →
      applyRuleStep pn payload d rule = some d) ∧
    (∀ (pn : String) (rules : List (String × String))
       (p1 p2 d : List (String × Json)),
      (∀ r ∈ rules,
        getNestedValue (.obj p1) r.1 = getNestedValue (.obj p2) r.1) →
      List.foldlM (applyRuleStep pn p1) d rules =
        List.foldlM (applyRuleStep pn p2) d rules) := by
  constructor
  · intro pn payload d rule h
    unfold applyRuleStep
    rw [if_pos h]
  · intro pn rules
    induction rules with
    | nil => intro p1 p2 d _; rfl
    | cons r rest ih =>
      intro p1 p2 d h
      have hstep : applyRuleStep pn p1 d r = applyRuleStep pn p2 d r := by
        unfold applyRuleStep
        rw [h r (List.mem_cons_self r rest)]
      rw [List.foldlM_cons, List.foldlM_cons, hstep]
      exact Option.bind_congr (fun d1 _ =>
        ih p1 p2 d1 (fun r' hr' => h r' (List.mem_cons_of_mem _ hr')))

/-- Concrete check of the C10 null-skipping behaviour: on retell's rules,
a payload with an explicit null transcript and one with the field absent
produce the same intermediate mapped data. -/
theorem null_source_skipped_like_absent_check :
    applyRuleStep "retell" [("call", Json.obj [("transcript", Json.null)])]
      [] ("call.transcript", "artifacts.transcript") = some [] ∧
    List.foldlM (applyRuleStep "retell"
        [("call", Json.obj [("transcript", Json.null)])]) []
      [("call.call_id", "call.call_id"),
       ("call.from_number", "call.from_"),
       ("call.to_number", "call.to"),
       ("call.direction", "call.channel"),
       ("call.start_timestamp", "call.start_time"),
       ("call.end_timestamp", "call.end_time"),
       ("call.transcript", "artifacts.transcript"),
       ("event", "audit.event_type")] =
    List.foldlM (applyRuleStep "retell" [("call", Json.obj [])]) []
      [("call.call_id", "call.call_id"),
       ("call.from_number", "call.from_"),
       ("call.to_number", "call.to"),
       ("call.direction", "call.channel"),
       ("call.start_timestamp", "call.start_time"),
       ("call.end_timestamp", "call.end_time"),
       ("call.transcript", "artifacts.transcript"),
       ("event", "audit.event_type")] := by
  refine ⟨null_source_skipped_like_absent.1 "retell" _ [] _ (by decide),
    null_source_skipped_like_absent.2 "retell" _ _ _ [] ?_⟩
  intro r hr
  fin_cases hr <;> rfl

/-- Concrete check of the C9 validation behaviour. -/
theorem validate_v05_behaviour_check :
    "Cannot process data with revoked consent" ∈
      (validate_v05 ⟨⟨⟨"c1", 0, none, []⟩,
        some ⟨"k1", ConsentStatusV05.revoked⟩⟩⟩).1 ∧
    "Call end_time cannot be before start_time" ∈
      (validate_v05 ⟨⟨⟨"c2", 5, some 1, []⟩, none⟩⟩).1 ∧
    "User consent has expired" ∈
      (validate_v05 ⟨⟨⟨"c3", 0, none, []⟩,
        some ⟨"k3", ConsentStatusV05.expired⟩⟩⟩).2 :=
  ⟨(validate_v05_behaviour _).1 _ rfl rfl,
   (validate_v05_behaviour _).2.1 1 rfl (by decide),
   ((validate_v05_behaviour _).2.2.1 _ rfl rfl).1⟩

/-- C2 counterexample (against the unamended claim): rules whose canonical
path lies in the hcr or audit sections do NOT reach the output. For retell,
payload {"event": "call_ended"} has a present value at provider path
"event" (rule ("event", "audit.event_type")), yet the produced message is
null at "vcp_payload.audit.event_type"; for assistable, payload
{"call_summary": "s"} is present at "call_summary"
(rule ("call_summary", "hcr.summary")), yet the output is null at
"vcp_payload.hcr.summary" — both sections are rebuilt from fixed defaults
and the mapped values are discarded. -/
theorem hcr_audit_rules_dropped :
    (Option.map (fun r =>
        ((getNestedValue (.obj [("event", Json.str "call_ended")])
            "event").isNull,
         (getNestedValue r "vcp_payload.audit.event_type").isNull))
      (map_to_vcp "T" "u1" "retell" [("event", Json.str "call_ended")]) =
      some (false, true)) ∧
    (Option.map (fun r =>
        ((getNestedValue (.obj [("call_summary", Json.str "s")])
            "call_summary").isNull,
         (getNestedValue r "vcp_payload.hcr.summary").isNull))
      (map_to_vcp "T" "u1" "assistable"
        [("call_summary", Json.str "s")]) =
      some (false, true)) := by
  constructor
  · decide
  · decide

/-- C2 (amended): for every registered provider and every mapping rule
whose canonical path lies in the call, outcomes, artifacts or custom
sections, a present (non-null) value at the rule's provider path appears
(possibly transformed) at the canonical path inside the produced message.
(Rules whose canonical path lies in the hcr or audit sections are dropped:
those sections are rebuilt from fixed defaults — see the counterexample.)
-/
theorem mapped_rules_reach_output :
    ∀ (pn : String) (prov : ProviderInfo), (pn, prov) ∈ providers →
    ∀ (pp cp : String), (pp, cp) ∈ prov.vcp_mapping_rules →
    (splitPath cp).headD "" ∈
      (["call", "outcomes", "artifacts", "custom"] : List String) →
    ∀ (now uuid : String) (payload : List (String × Json)) (r : Json),
      map_to_vcp now uuid pn payload = some r →
      (getNestedValue (.obj payload) pp).isNull = false →
      ∃ w, ruleTransform pn pp (getNestedValue (.obj payload) pp) =
          some w ∧
        getNestedValue r ("vcp_payload." ++ cp) = w := by
  intro pn prov hmem pp cp hrule hsec now uuid payload r hmap hnn
  have hrule' := hrule
  simp only [providers, List.mem_cons, List.not_mem_nil, or_false,
    Prod.mk.injEq] at hmem
  rcases hmem with hRetP | hmem
  · -- retell
    obtain ⟨rfl, rfl⟩ := hRetP
    simp only [List.mem_cons, List.not_mem_nil, or_false,
      Prod.mk.injEq] at hrule'
    rcases hrule' with hRet1 | hrule'
    · -- (call.call_id, call.call_id)
      obtain ⟨rfl, rfl⟩ := hRet1
      exact mergedRuleFinal _ _ (by decide) (by decide) (by decide)
        _ _ "call" "call_id" [] hrule (by decide) (by decide)
        (Or.inl rfl) now uuid payload r hmap hnn
    rcases hrule' with hRet2 | hrule'
    · -- (call.from_number, call.from_)
      obtain ⟨rfl, rfl⟩ := hRet2
      exact mergedRuleFinal _ _ (by decide) (by decide) (by decide)
        _ _ "call" "from_" [] hrule (by decide) (by decide)
        (Or.inl rfl) now uuid payload r hmap hnn
    rcases hrule' with hRet3 | hrule'
    · -- (call.to_number, call.to)
      obtain ⟨rfl, rfl⟩ := hRet3
      exact mergedRuleFinal _ _ (by decide) (by decide) (by decide)
        _ _ "call" "to" [] hrule (by decide) (by decide)
        (Or.inl rfl) now uuid payload r hmap hnn
    rcases hrule' with hRet4 | hrule'
    · -- (call.direction, call.channel)
      obtain ⟨rfl, rfl⟩ := hRet4
      exact mergedRuleFinal _ _ (by decide) (by decide) (by decide)
        _ _ "call" "channel" [] hrule (by decide) (by decide)
        (Or.inl rfl) now uuid payload r hmap hnn
    rcases hrule' with hRet5 | hrule'
    · -- (call.start_timestamp, call.start_time)
      obtain ⟨rfl, rfl⟩ := hRet5
      exact mergedRuleFinal _ _ (by decide) (by decide) (by decide)
        _ _ "call" "start_time" [] hrule (by decide) (by decide)
        (Or.inl rfl) now uuid payload r hmap hnn
    rcases hrule' with hRet6 | hrule'
    · -- (call.end_timestamp, call.end_time)
      obtain ⟨rfl, rfl⟩ := hRet6
      exact mergedRuleFinal _ _ (by decide) (by decide) (by decide)
        _ _ "call" "end_time" [] hrule (by decide) (by decide)
        (Or.inl rfl) now uuid payload r hmap hnn
    rcases hrule' with hRet7 | hrule'
    · -- (call.transcript, artifacts.transcript)
      obtain ⟨rfl, rfl⟩ := hRet7
      exact artifactsRuleFinal _ _ (by decide) (by decide) (by decide)
        _ _ "transcript" [] hrule (by decide) (by decide)
        now uuid payload r hmap hnn
    -- (event, audit.event_type) is the last rule
    obtain ⟨rfl, rfl⟩ := hrule'
    exact absurd hsec (by decide)
  rcases hmem with hBlaP | hmem
  · -- bland
    obtain ⟨rfl, rfl⟩ := hBlaP
    simp only [List.mem_cons, List.not_mem_nil, or_false,
      Prod.mk.injEq] at hrule'
    rcases hrule' with hBla1 | hrule'
    · -- (call_id, call.call_id)
      obtain ⟨rfl, rfl⟩ := hBla1
      exact mergedRuleFinal _ _ (by decide) (by decide) (by decide)
        _ _ "call" "call_id" [] hrule (by decide) (by decide)
        (Or.inl rfl) now uuid payload r hmap hnn
    rcases hrule' with hBla2 | hrule'
    · -- (from, call.from_)
      obtain ⟨rfl, rfl⟩ := hBla2
      exact mergedRuleFinal _ _ (by decide) (by decide) (by decide)
        _ _ "call" "from_" [] hrule (by decide) (by decide)
        (Or.inl rfl) now uuid payload r hmap hnn
    rcases hrule' with hBla3 | hrule'
    · -- (to, call.to)
      obtain ⟨rfl, rfl⟩ := hBla3
      exact mergedRuleFinal _ _ (by decide) (by decide) (by decide)
        _ _ "call" "to" [] hrule (by decide) (by decide)
        (Or.inl rfl) now uuid payload r hmap hnn
    rcases hrule' with hBla4 | hrule'
    · -- (call_length, call.duration_sec)
      obtain ⟨rfl, rfl⟩ := hBla4
      exact mergedRuleFinal _ _ (by decide) (by decide) (by decide)
        _ _ "call" "duration_sec" [] hrule (by decide) (by decide)
        (Or.inl rfl) now uuid payload r hmap hnn
    rcases hrule' with hBla5 | hrule'
    · -- (transcript, artifacts.transcript)
      obtain ⟨rfl, rfl⟩ := hBla5
      exact artifactsRuleFinal _ _ (by decide) (by decide) (by decide)
        _ _ "transcript" [] hrule (by decide) (by decide)
        now uuid payload r hmap hnn
    -- (recording_url, artifacts.recording_url) is the last rule
    obtain ⟨rfl, rfl⟩ := hrule'
    exact artifactsRuleFinal _ _ (by decide) (by decide) (by decide)
      _ _ "recording_url" [] hrule (by decide) (by decide)
      now uuid payload r hmap hnn
  rcases hmem with hVapP | hmem
  · -- vapi
    obtain ⟨rfl, rfl⟩ := hVapP
    simp only [List.mem_cons, List.not_mem_nil, or_false,
      Prod.mk.injEq] at hrule'
    rcases hrule' with hVap1 | hrule'
    · -- (message.call.id, call.call_id)
      obtain ⟨rfl, rfl⟩ := hVap1
      exact mergedRuleFinal _ _ (by decide) (by decide) (by decide)
        _ _ "call" "call_id" [] hrule (by decide) (by decide)
        (Or.inl rfl) now uuid payload r hmap hnn
    rcases hrule' with hVap2 | hrule'
    · -- (message.endedReason, outcomes.objective.disconnect_reason)
      obtain ⟨rfl, rfl⟩ := hVap2
      exact mergedRuleFinal _ _ (by decide) (by decide) (by decide)
        _ _ "outcomes" "objective" ["disconnect_reason"] hrule (by decide) (by decide)
        (Or.inr rfl) now uuid payload r hmap hnn
    rcases hrule' with hVap3 | hrule'
    · -- (message.artifact.transcript, artifacts.transcript)
      obtain ⟨rfl, rfl⟩ := hVap3
      exact artifactsRuleFinal _ _ (by decide) (by decide) (by decide)
        _ _ "transcript" [] hrule (by decide) (by decide)
        now uuid payload r hmap hnn
    -- (message.artifact.recording, artifacts.recording_url) is the last rule
    obtain ⟨rfl, rfl⟩ := hrule'
    exact artifactsRuleFinal _ _ (by decide) (by decide) (by decide)
      _ _ "recording_url" [] hrule (by decide) (by decide)
      now uuid payload r hmap hnn
  rcases hmem with hEleP | hmem
  · -- elevenlabs
    obtain ⟨rfl, rfl⟩ := hEleP
    simp only [List.mem_cons, List.not_mem_nil, or_false,
      Prod.mk.injEq] at hrule'
    rcases hrule' with hEle1 | hrule'
    · -- (data.conversation_id, call.call_id)
      obtain ⟨rfl, rfl⟩ := hEle1
      exact mergedRuleFinal _ _ (by decide) (by decide) (by decide)
        _ _ "call" "call_id" [] hrule (by decide) (by decide)
        (Or.inl rfl) now uuid payload r hmap hnn
    rcases hrule' with hEle2 | hrule'
    · -- (data.agent_id, call.agent_id)
      obtain ⟨rfl, rfl⟩ := hEle2
      exact mergedRuleFinal _ _ (by decide) (by decide) (by decide)
        _ _ "call" "agent_id" [] hrule (by decide) (by decide)
        (Or.inl rfl) now uuid payload r hmap hnn
    rcases hrule' with hEle3 | hrule'
    · -- (data.transcript, artifacts.transcript_object)
      obtain ⟨rfl, rfl⟩ := hEle3
      exact artifactsRuleFinal _ _ (by decide) (by decide) (by decide)
        _ _ "transcript_object" [] hrule (by decide) (by decide)
        now uuid payload r hmap hnn
    rcases hrule' with hEle4 | hrule'
    · -- (data.metadata.start_time_unix_secs, call.start_time)
      obtain ⟨rfl, rfl⟩ := hEle4
      exact mergedRuleFinal _ _ (by decide) (by decide) (by decide)
        _ _ "call" "start_time" [] hrule (by decide) (by decide)
        (Or.inl rfl) now uuid payload r hmap hnn
    -- (data.metadata.call_duration_secs, call.duration_sec) is the last rule
    obtain ⟨rfl, rfl⟩ := hrule'
    exact mergedRuleFinal _ _ (by decide) (by decide) (by decide)
      _ _ "call" "duration_sec" [] hrule (by decide) (by decide)
      (Or.inl rfl) now uuid payload r hmap hnn
  rcases hmem with hOaiP | hmem
  · -- openai_realtime
    obtain ⟨rfl, rfl⟩ := hOaiP
    simp only [List.mem_cons, List.not_mem_nil, or_false,
      Prod.mk.injEq] at hrule'
    rcases hrule' with hOai1 | hrule'
    · -- (session.id, call.session_id)
      obtain ⟨rfl, rfl⟩ := hOai1
      exact mergedRuleFinal _ _ (by decide) (by decide) (by decide)
        _ _ "call" "session_id" [] hrule (by decide) (by decide)
        (Or.inl rfl) now uuid payload r hmap hnn
    rcases hrule' with hOai2 | hrule'
    · -- (session.model, call.model_used)
      obtain ⟨rfl, rfl⟩ := hOai2
      exact mergedRuleFinal _ _ (by decide) (by decide) (by decide)
        _ _ "call" "model_used" [] hrule (by decide) (by decide)
        (Or.inl rfl) now uuid payload r hmap hnn
    -- (item.content.transcript, artifacts.transcript) is the last rule
    obtain ⟨rfl, rfl⟩ := hrule'
    exact artifactsRuleFinal _ _ (by decide) (by decide) (by decide)
      _ _ "transcript" [] hrule (by decide) (by decide)
      now uuid payload r hmap hnn
  -- assistable (the last provider of the registry)
  obtain ⟨rfl, rfl⟩ := hmem
  simp only [List.mem_cons, List.not_mem_nil, or_false,
    Prod.mk.injEq] at hrule'
  rcases hrule' with hAst1 | hrule'
  · -- (call_id, call.call_id)
    obtain ⟨rfl, rfl⟩ := hAst1
    exact mergedRuleFinal _ _ (by decide) (by decide) (by decide)
      _ _ "call" "call_id" [] hrule (by decide) (by decide)
      (Or.inl rfl) now uuid payload r hmap hnn
  rcases hrule' with hAst2 | hrule'
  · -- (direction, call.channel)
    obtain ⟨rfl, rfl⟩ := hAst2
    exact mergedRuleFinal _ _ (by decide) (by decide) (by decide)
      _ _ "call" "channel" [] hrule (by decide) (by decide)
      (Or.inl rfl) now uuid payload r hmap hnn
  rcases hrule' with hAst3 | hrule'
  · -- (to, call.to)
    obtain ⟨rfl, rfl⟩ := hAst3
    exact mergedRuleFinal _ _ (by decide) (by decide) (by decide)
      _ _ "call" "to" [] hrule (by decide) (by decide)
      (Or.inl rfl) now uuid payload r hmap hnn
  rcases hrule' with hAst4 | hrule'
  · -- (from, call.from_)
    obtain ⟨rfl, rfl⟩ := hAst4
    exact mergedRuleFinal _ _ (by decide) (by decide) (by decide)
      _ _ "call" "from_" [] hrule (by decide) (by decide)
      (Or.inl rfl) now uuid payload r hmap hnn
  rcases hrule' with hAst5 | hrule'
  · -- (start_timestamp, call.start_time)
    obtain ⟨rfl, rfl⟩ := hAst5
    exact mergedRuleFinal _ _ (by decide) (by decide) (by decide)
      _ _ "call" "start_time" [] hrule (by decide) (by decide)
      (Or.inl rfl) now uuid payload r hmap hnn
  rcases hrule' with hAst6 | hrule'
  · -- (end_timestamp, call.end_time)
    obtain ⟨rfl, rfl⟩ := hAst6
    exact mergedRuleFinal _ _ (by decide) (by decide) (by decide)
      _ _ "call" "end_time" [] hrule (by decide) (by decide)
      (Or.inl rfl) now uuid payload r hmap hnn
  rcases hrule' with hAst7 | hrule'
  · -- (call_time_seconds, call.duration_sec)
    obtain ⟨rfl, rfl⟩ := hAst7
    exact mergedRuleFinal _ _ (by decide) (by decide) (by decide)
      _ _ "call" "duration_sec" [] hrule (by decide) (by decide)
      (Or.inl rfl) now uuid payload r hmap hnn
  rcases hrule' with hAst8 | hrule'
  · -- (full_transcript, artifacts.transcript)
    obtain ⟨rfl, rfl⟩ := hAst8
    exact artifactsRuleFinal _ _ (by decide) (by decide) (by decide)
      _ _ "transcript" [] hrule (by decide) (by decide)
      now uuid payload r hmap hnn
  rcases hrule' with hAst9 | hrule'
  · -- (recording_url, artifacts.recording_url)
    obtain ⟨rfl, rfl⟩ := hAst9
    exact artifactsRuleFinal _ _ (by decide) (by decide) (by decide)
      _ _ "recording_url" [] hrule (by decide) (by decide)
      now uuid payload r hmap hnn
  rcases hrule' with hAst10 | hrule'
  · -- (call_summary, hcr.summary)
    obtain ⟨rfl, rfl⟩ := hAst10
    exact absurd hsec (by decide)
  rcases hrule' with hAst11 | hrule'
  · -- (user_sentiment, outcomes.user_satisfaction_score)
    obtain ⟨rfl, rfl⟩ := hAst11
    exact mergedRuleFinal _ _ (by decide) (by decide) (by decide)
      _ _ "outcomes" "user_satisfaction_score" [] hrule (by decide) (by decide)
      (Or.inr rfl) now uuid payload r hmap hnn
  rcases hrule' with hAst12 | hrule'
  · -- (call_completion, outcomes.objective.metrics.task_completion)
    obtain ⟨rfl, rfl⟩ := hAst12
    exact mergedRuleFinal _ _ (by decide) (by decide) (by decide)
      _ _ "outcomes" "objective" ["metrics", "task_completion"] hrule (by decide) (by decide)
      (Or.inr rfl) now uuid payload r hmap hnn
  rcases hrule' with hAst13 | hrule'
  · -- (assistant_task_completion, outcomes.objective.metrics.assistant_success)
    obtain ⟨rfl, rfl⟩ := hAst13
    exact mergedRuleFinal _ _ (by decide) (by decide) (by decide)
      _ _ "outcomes" "objective" ["metrics", "assistant_success"] hrule (by decide) (by decide)
      (Or.inr rfl) now uuid payload r hmap hnn
  rcases hrule' with hAst14 | hrule'
  · -- (disconnection_reason, outcomes.objective.status)
    obtain ⟨rfl, rfl⟩ := hAst14
    exact mergedRuleFinal _ _ (by decide) (by decide) (by decide)
      _ _ "outcomes" "objective" ["status"] hrule (by decide) (by decide)
      (Or.inr rfl) now uuid payload r hmap hnn
  rcases hrule' with hAst15 | hrule'
  · -- (extractions, custom.provider_specific.assistable.extractions)
    obtain ⟨rfl, rfl⟩ := hAst15
    exact customRuleFinal _ (by decide) (by decide)
      _ "extractions" _ hrule (Or.inl ⟨rfl, rfl⟩)
      (by decide) (by decide) (fun v => rfl)
      now uuid payload r hmap hnn
  rcases hrule' with hAst16 | hrule'
  · -- (args, custom.provider_specific.assistable.call_args)
    obtain ⟨rfl, rfl⟩ := hAst16
    exact customRuleFinal _ (by decide) (by decide)
      _ "call_args" _ hrule (Or.inr (Or.inl ⟨rfl, rfl⟩))
      (by decide) (by decide) (fun v => rfl)
      now uuid payload r hmap hnn
  rcases hrule' with hAst17 | hrule'
  · -- (metadata, custom.provider_specific.assistable.metadata)
    obtain ⟨rfl, rfl⟩ := hAst17
    exact customRuleFinal _ (by decide) (by decide)
      _ "metadata" _ hrule (Or.inr (Or.inr (Or.inl ⟨rfl, rfl⟩)))
      (by decide) (by decide) (fun v => rfl)
      now uuid payload r hmap hnn
  rcases hrule' with hAst18 | hrule'
  · -- (contact_id, call.caller_id)
    obtain ⟨rfl, rfl⟩ := hAst18
    exact mergedRuleFinal _ _ (by decide) (by decide) (by decide)
      _ _ "call" "caller_id" [] hrule (by decide) (by decide)
      (Or.inl rfl) now uuid payload r hmap hnn
  -- (call_type, custom.provider_specific.assistable.call_type) is the last rule
  obtain ⟨rfl, rfl⟩ := hrule'
  exact customRuleFinal _ (by decide) (by decide)
    _ "call_type" _ hrule (Or.inr (Or.inr (Or.inr ⟨rfl, rfl⟩)))
    (by decide) (by decide) (fun v => rfl)
    now uuid payload r hmap hnn

/-- C2 witness: the amended theorem applied at provider "retell", rule
("call.call_id", "call.call_id") and the concrete payload
{"call": {"call_id": "abc"}}. -/
theorem mapped_rules_reach_output_witness :
    ∃ r, map_to_vcp "T" "u" "retell"
        [("call", Json.obj [("call_id", Json.str "abc")])] = some r ∧
      ∃ w, ruleTransform "retell" "call.call_id"
          (getNestedValue
            (.obj [("call", Json.obj [("call_id", Json.str "abc")])])
            "call.call_id") = some w ∧
        getNestedValue r ("vcp_payload." ++ "call.call_id") = w := by
  obtain ⟨r, hr⟩ := Option.isSome_iff_exists.mp
    (by decide : (map_to_vcp "T" "u" "retell"
      [("call", Json.obj [("call_id", Json.str "abc")])]).isSome = true)
  exact ⟨r, hr, mapped_rules_reach_output "retell"
    ((providers.get ⟨0, by decide⟩).2) (by decide)
    "call.call_id" "call.call_id" (by decide) (by decide)
    "T" "u" [("call", Json.obj [("call_id", Json.str "abc")])] r hr
    (by decide)⟩

end VoiceLens
